import Mathlib

/-!
# Catalog queries of `backup/queries_general.go`

A shallow embedding of the query functions of `backup/queries_general.go`.

* Go's `uint32` oids are natural numbers, `int` and `int64` are integers; no
  arithmetic is done on them in this file.
* The connection (`*utils.DBConn`) is a record of answers, one per destination
  type of `Select` and `Get`: given the query text it yields what the call
  leaves in the destination and the `error` it returns (`none` for `nil`).
* Every function runs against a log of the queries issued so far, so that the
  number and the text of the round trips can be stated.
* A Go `map` is an association list with at most one entry per key; the
  functions here never range over a map, so the entry order is unobservable.
* `NonUserSchemaFilterClause`, `MakeFQN` and `utils.QuoteIdent` are defined in
  other files; each function that calls one of them takes it as an argument.
-/

namespace Backup

/-! ## Records -/

/-- The Go `error` returned by the connection. -/
abbrev DBError := String

/-- Modelled from the spec: the `Schema` record is declared outside this file;
the spec gives it the fields oid and name, the two columns of the query. -/
structure Schema where
  Oid : Nat := 0
  Name : String := ""
deriving DecidableEq, Repr

structure QueryConstraint where
  Oid : Nat := 0
  ConName : String := ""
  ConType : String := ""
  ConDef : String := ""
  OwningObject : String := ""
  IsDomainConstraint : Bool := false
  IsPartitionParent : Bool := false
deriving DecidableEq, Repr

/-- Modelled from the spec: the `Relation` record is declared outside this
file; the spec gives it schema oid, relation oid, schema name and relation
name, the four columns of the query. -/
structure Relation where
  SchemaOid : Nat := 0
  RelationOid : Nat := 0
  SchemaName : String := ""
  RelationName : String := ""
deriving DecidableEq, Repr

structure QuerySequenceDefinition where
  Name : String := ""
  LastVal : Int := 0
  Increment : Int := 0
  MaxVal : Int := 0
  MinVal : Int := 0
  CacheVal : Int := 0
  LogCnt : Int := 0
  IsCycled : Bool := false
  IsCalled : Bool := false
deriving DecidableEq, Repr

structure QuerySequenceOwner where
  SchemaName : String := ""
  SequenceName : String := ""
  TableName : String := ""
  ColumnName : String := ""
deriving DecidableEq, Repr

structure QuerySessionGUCs where
  ClientEncoding : String := ""
  StdConformingStrings : String := ""
  DefaultWithOids : String := ""
deriving DecidableEq, Repr

structure QueryProceduralLanguage where
  Oid : Nat := 0
  Name : String := ""
  Owner : String := ""
  IsPl : Bool := false
  PlTrusted : Bool := false
  Handler : Nat := 0
  Inline : Nat := 0
  Validator : Nat := 0
deriving DecidableEq, Repr

structure QueryExtProtocol where
  Oid : Nat := 0
  Name : String := ""
  Owner : String := ""
  Trusted : Bool := false
  ReadFunction : Nat := 0
  WriteFunction : Nat := 0
  Validator : Nat := 0
deriving DecidableEq, Repr

structure QueryOperator where
  Oid : Nat := 0
  SchemaName : String := ""
  Name : String := ""
  ProcedureName : String := ""
  LeftArgType : String := ""
  RightArgType : String := ""
  CommutatorOp : String := ""
  NegatorOp : String := ""
  RestrictFunction : String := ""
  JoinFunction : String := ""
  CanHash : Bool := false
  CanMerge : Bool := false
deriving DecidableEq, Repr

structure QueryOperatorFamily where
  Oid : Nat := 0
  SchemaName : String := ""
  Name : String := ""
  IndexMethod : String := ""
deriving DecidableEq, Repr

structure OperatorClassOperator where
  ClassOid : Nat := 0
  StrategyNumber : Int := 0
  Operator : String := ""
  Recheck : Bool := false
deriving DecidableEq, Repr

structure OperatorClassFunction where
  ClassOid : Nat := 0
  SupportNumber : Int := 0
  FunctionName : String := ""
deriving DecidableEq, Repr

structure QueryOperatorClass where
  Oid : Nat := 0
  ClassSchema : String := ""
  ClassName : String := ""
  FamilySchema : String := ""
  FamilyName : String := ""
  IndexMethod : String := ""
  /-- The Go field `Type`, a reserved word here. -/
  Type_ : String := ""
  Default : Bool := false
  StorageType : String := ""
  Operators : List OperatorClassOperator := []
  Functions : List OperatorClassFunction := []
deriving DecidableEq, Repr

structure Conversion where
  Oid : Nat := 0
  Schema : String := ""
  Name : String := ""
  ForEncoding : String := ""
  ToEncoding : String := ""
  ConversionFunction : String := ""
  IsDefault : Bool := false
deriving DecidableEq, Repr

/-! ## Go maps -/

/-- A Go `map[K]V`: an association list, one entry per key. -/
abbrev GoMap (K V : Type) := List (K × V)

namespace GoMap

variable {K V : Type} [DecidableEq K]

/-- The two-valued read `v, ok := m[k]`. -/
def find? : GoMap K V → K → Option V
  | [], _ => none
  | (k', v) :: rest, k => if k' = k then some v else find? rest k

/-- The read `m[k]`: the stored value, or the zero value of `V` when absent. -/
def index (zero : V) (m : GoMap K V) (k : K) : V :=
  (find? m k).getD zero

/-- The write `m[k] = v`: replaces the entry of `k`, or adds one. -/
def set : GoMap K V → K → V → GoMap K V
  | [], k, v => [(k, v)]
  | (k', v') :: rest, k, v =>
    if k' = k then (k, v) :: rest else (k', v') :: set rest k v

/-- The keys present in the map. -/
def keys (m : GoMap K V) : List K := m.map Prod.fst

end GoMap

/-! ## The connection and the query log -/

/-- A run against the connection: from the log of queries issued so far to
the value returned, or the error the run aborted with, and the log afterwards. -/
def Run (α : Type) : Type := List String → Except DBError α × List String

namespace Run

/-- Returns a value without touching the connection. -/
def ret {α : Type} (a : α) : Run α := fun log => (Except.ok a, log)

/-- Sequencing: an aborted run skips everything after it. -/
def andThen {α β : Type} (m : Run α) (f : α → Run β) : Run β := fun log =>
  match m log with
  | (Except.ok a, log') => f a log'
  | (Except.error e, log') => (Except.error e, log')

instance : Monad Run where
  pure := ret
  bind := andThen

end Run

/-- Modelled from the spec: `utils.DBConn` is declared in the `utils` package,
outside this file. By the spec the connection offers "execute query, map rows
to records" and "execute query, map single row", surfacing an error on
failure. The record holds the answers of the database by destination type: an
answer is what the call leaves in the destination together with the error it
returns; `Get` also receives the destination it writes into. -/
structure DBConn where
  SelectSchema : String → List Schema × Option DBError
  SelectConstraint : String → List QueryConstraint × Option DBError
  SelectRelation : String → List Relation × Option DBError
  SelectSequenceOwner : String → List QuerySequenceOwner × Option DBError
  SelectProceduralLanguage : String → List QueryProceduralLanguage × Option DBError
  SelectExtProtocol : String → List QueryExtProtocol × Option DBError
  SelectOperator : String → List QueryOperator × Option DBError
  SelectOperatorFamily : String → List QueryOperatorFamily × Option DBError
  SelectOperatorClass : String → List QueryOperatorClass × Option DBError
  SelectOperatorClassOperator : String → List OperatorClassOperator × Option DBError
  SelectOperatorClassFunction : String → List OperatorClassFunction × Option DBError
  SelectConversion : String → List Conversion × Option DBError
  GetSequenceDefinition :
    QuerySequenceDefinition → String → QuerySequenceDefinition × Option DBError
  GetSessionGUCs : QuerySessionGUCs → String → QuerySessionGUCs × Option DBError

/-- Modelled from the spec: the method `Select` of `utils.DBConn`, defined in
the `utils` package. The call `err := connection.Select(&results, query)` on
an empty `results` is one round trip, recorded in the log. -/
def Select {α : Type} (answer : String → List α × Option DBError) (query : String) :
    Run (List α × Option DBError) :=
  fun log => (Except.ok (answer query), log ++ [query])

/-- Modelled from the spec: the method `Get` of `utils.DBConn`, defined in the
`utils` package. The call `err := connection.Get(&result, query)` is one round
trip, recorded in the log. -/
def Get {α : Type} (answer : α → String → α × Option DBError) (result : α)
    (query : String) : Run (α × Option DBError) :=
  fun log => (Except.ok (answer result query), log ++ [query])

/-- Modelled from the spec: `utils.CheckError` is defined in the `utils`
package, outside this file. By the spec a query operation fails with the
error on execution or decoding failure and the failure aborts the extraction;
so a non-nil error aborts the run with that error and `nil` lets it go on. -/
def CheckError (err : Option DBError) : Run Unit := fun log =>
  match err with
  | none => (Except.ok (), log)
  | some e => (Except.error e, log)

/-! ## Query texts -/

/-- The text `query` of `GetAllUserSchemas`, the result of its `fmt.Sprintf`. -/
def GetAllUserSchemasQuery (NonUserSchemaFilterClause : String → String) : String :=
  "\nSELECT\n\toid,\n\tnspname AS name\nFROM pg_namespace n\nWHERE "
    ++ NonUserSchemaFilterClause "n"
    ++ "\nORDER BY name;"

/-- The text `query` of `GetConstraints`, the result of its `fmt.Sprintf`. -/
def GetConstraintsQuery (NonUserSchemaFilterClause : String → String) : String :=
  "\nSELECT\n\tc.oid,\n\tconname,\n\tcontype,\n\tpg_get_constraintdef(c.oid, TRUE) AS condef,\n\tCASE\n\t\tWHEN r.relname IS NULL THEN quote_ident(n.nspname) || '.' ||quote_ident(t.typname)\n\t\tELSE  quote_ident(n.nspname) || '.' || quote_ident(r.relname)\n\tEND AS owningobject,\n\tCASE\n\t\tWHEN r.relname IS NULL THEN 't'\n\t\tELSE 'f'\n\tEND AS isdomainconstraint,\n\tCASE\n\t\tWHEN pt.parrelid IS NULL THEN 'f'\n\t\tELSE 't'\n\tEND AS ispartitionparent\nFROM pg_constraint c\nLEFT JOIN pg_class r\n\tON c.conrelid = r.oid\nLEFT JOIN pg_partition_rule pr\n\tON c.conrelid = pr.parchildrelid\nLEFT JOIN pg_partition pt\n\tON c.conrelid = pt.parrelid\nLEFT JOIN pg_type t\n\tON c.contypid = t.oid\nJOIN pg_namespace n\n\tON n.oid = c.connamespace\nWHERE "
    ++ NonUserSchemaFilterClause "n"
    ++ "\nAND pr.parchildrelid IS NULL\nORDER BY conname;"

/-- The text `query` of `GetAllSequenceRelations`. -/
def GetAllSequenceRelationsQuery : String :=
  "SELECT\n\tn.oid AS schemaoid,\n\tc.oid AS relationoid,\n\tn.nspname AS schemaname,\n\tc.relname AS relationname\nFROM pg_class c\nLEFT JOIN pg_namespace n\n\tON c.relnamespace = n.oid\nWHERE relkind = 'S'\nORDER BY schemaname, relationname;"

/-- The text `query` of `GetSequenceColumnOwnerMap`. -/
def GetSequenceColumnOwnerMapQuery : String :=
  "SELECT\n\tn.nspname,\n\ts.relname AS sequencename,\n\tt.relname AS tablename,\n\ta.attname\nFROM pg_depend d\nJOIN pg_attribute a\n\tON a.attrelid = d.refobjid AND a.attnum = d.refobjsubid\nJOIN pg_class s\n\tON s.oid = d.objid\nJOIN pg_class t\n\tON t.oid = d.refobjid\nJOIN pg_namespace n\n\tON n.oid = s.relnamespace\nWHERE s.relkind = 'S';"

/-- The text `query` of `GetProceduralLanguages`. -/
def GetProceduralLanguagesQuery : String :=
  "\nSELECT\n\toid,\n\tl.lanname,\n\tpg_get_userbyid(l.lanowner) as owner,\n\tl.lanispl,\n\tl.lanpltrusted,\n\tl.lanplcallfoid::regprocedure::oid,\n\tl.laninline::regprocedure::oid,\n\tl.lanvalidator::regprocedure::oid\nFROM pg_language l\nWHERE l.lanispl='t';\n"

/-- The text `query` of `GetExternalProtocols`. -/
def GetExternalProtocolsQuery : String :=
  "\nSELECT\n\tp.oid,\n\tp.ptcname,\n\tpg_get_userbyid(p.ptcowner) as owner,\n\tp.ptctrusted,\n\tp.ptcreadfn,\n\tp.ptcwritefn,\n\tp.ptcvalidatorfn\nFROM pg_extprotocol p;\n"

/-- The text `query` of `GetOperators`, the result of its `fmt.Sprintf`. -/
def GetOperatorsQuery (NonUserSchemaFilterClause : String → String) : String :=
  "\nSELECT\n\to.oid,\n\tn.nspname AS schemaname,\n\toprname AS name,\n\toprcode AS procedurename,\n\toprleft::regtype AS leftargtype,\n\toprright::regtype AS rightargtype,\n\toprcom::regoper AS commutatorop,\n\toprnegate::regoper AS negatorop,\n\toprrest AS restrictfunction,\n\toprjoin AS joinfunction,\n\toprcanmerge AS canmerge,\n\toprcanhash AS canhash\nFROM pg_operator o\nJOIN pg_namespace n on n.oid = o.oprnamespace\nWHERE "
    ++ NonUserSchemaFilterClause "n"
    ++ " AND oprcode != 0"

/-- The text `query` of `GetOperatorFamilies`, the result of its `fmt.Sprintf`. -/
def GetOperatorFamiliesQuery (NonUserSchemaFilterClause : String → String) : String :=
  "\nSELECT\n\to.oid,\n\tn.nspname AS schemaname,\n\topfname AS name,\n\t(SELECT amname FROM pg_am WHERE oid = opfmethod) AS indexMethod\nFROM pg_opfamily o\nJOIN pg_namespace n on n.oid = o.opfnamespace\nWHERE "
    ++ NonUserSchemaFilterClause "n"

/-- The text `query` of `GetOperatorClasses`, the result of its `fmt.Sprintf`. -/
def GetOperatorClassesQuery (NonUserSchemaFilterClause : String → String) : String :=
  "\nSELECT\n\tc.oid,\n\tcls_ns.nspname AS classschema,\n\topcname AS classname,\n\tfam_ns.nspname AS familyschema,\n\topfname AS familyname,\n\t(SELECT amname FROM pg_catalog.pg_am WHERE oid = opcmethod) AS indexmethod,\n\topcintype::pg_catalog.regtype AS type,\n\topcdefault AS default,\n\topckeytype::pg_catalog.regtype AS storagetype\nFROM pg_catalog.pg_opclass c\nLEFT JOIN pg_catalog.pg_opfamily f ON f.oid = opcfamily\nJOIN pg_catalog.pg_namespace cls_ns ON cls_ns.oid = opcnamespace\nJOIN pg_catalog.pg_namespace fam_ns ON fam_ns.oid = opfnamespace\nWHERE "
    ++ NonUserSchemaFilterClause "cls_ns"

/-- The text `query` of `GetOperatorClassOperators`. -/
def GetOperatorClassOperatorsQuery : String :=
  "\nSELECT\n\trefobjid AS classoid,\n\tamopstrategy AS strategynumber,\n\tamopopr::pg_catalog.regoperator AS operator,\n\tamopreqcheck AS recheck\nFROM pg_catalog.pg_amop ao, pg_catalog.pg_depend\nWHERE refclassid = 'pg_catalog.pg_opclass'::pg_catalog.regclass\nAND classid = 'pg_catalog.pg_amop'::pg_catalog.regclass\nAND objid = ao.oid\nORDER BY amopstrategy\n"

/-- The text `query` of `GetOperatorClassFunctions`. -/
def GetOperatorClassFunctionsQuery : String :=
  "\nSELECT\n\trefobjid AS classoid,\n\tamprocnum AS supportnumber,\n\tamproc::pg_catalog.regprocedure AS functionname\nFROM pg_catalog.pg_amproc ap, pg_catalog.pg_depend\nWHERE refclassid = 'pg_catalog.pg_opclass'::pg_catalog.regclass\nAND classid = 'pg_catalog.pg_amproc'::pg_catalog.regclass\nAND objid = ap.oid\nORDER BY amprocnum\n"

/-- The text `query` of `GetConversions`, the result of its `fmt.Sprintf`. -/
def GetConversionsQuery (NonUserSchemaFilterClause : String → String) : String :=
  "\nSELECT\n\tc.oid,\n\tn.nspname,\n\tc.conname,\n\tpg_encoding_to_char(c.conforencoding) AS forencoding,\n\tpg_encoding_to_char(c.contoencoding) AS toencoding,\n\tquote_ident(fn.nspname) || '.' || quote_ident(p.proname) AS conversionfunction,\n\tc.condefault\nFROM pg_conversion c\nJOIN pg_namespace n ON c.connamespace = n.oid\nJOIN pg_proc p ON c.conproc = p.oid\nJOIN pg_namespace fn ON p.pronamespace = fn.oid\nWHERE "
    ++ NonUserSchemaFilterClause "n"
    ++ "\nORDER BY n.nspname, c.conname;"

/-! ## The query functions -/

def GetAllUserSchemas (NonUserSchemaFilterClause : String → String)
    (connection : DBConn) : Run (List Schema) := do
  let query := GetAllUserSchemasQuery NonUserSchemaFilterClause
  let (results, err) ← Select connection.SelectSchema query
  CheckError err
  return results

def GetConstraints (NonUserSchemaFilterClause : String → String)
    (connection : DBConn) : Run (List QueryConstraint) := do
  let query := GetConstraintsQuery NonUserSchemaFilterClause
  let (results, err) ← Select connection.SelectConstraint query
  CheckError err
  return results

def GetAllSequenceRelations (connection : DBConn) : Run (List Relation) := do
  let query := GetAllSequenceRelationsQuery
  let (results, err) ← Select connection.SelectRelation query
  CheckError err
  return results

def GetSequenceDefinition (connection : DBConn) (seqName : String) :
    Run QuerySequenceDefinition := do
  let query := "SELECT * FROM " ++ seqName
  let result : QuerySequenceDefinition := {}
  let (result, err) ← Get connection.GetSequenceDefinition result query
  CheckError err
  return result

/-- The value of `seqFQN` in the loop of `GetSequenceColumnOwnerMap`:
`MakeFQN(seqOwner.SchemaName, seqOwner.SequenceName)`. -/
def seqFQN (MakeFQN : String → String → String) (seqOwner : QuerySequenceOwner) : String :=
  MakeFQN seqOwner.SchemaName seqOwner.SequenceName

/-- The value of `columnFQN` in the loop of `GetSequenceColumnOwnerMap`:
`fmt.Sprintf("%s.%s", MakeFQN(seqOwner.SchemaName, seqOwner.TableName),
utils.QuoteIdent(seqOwner.ColumnName))`. -/
def columnFQN (MakeFQN : String → String → String) (QuoteIdent : String → String)
    (seqOwner : QuerySequenceOwner) : String :=
  MakeFQN seqOwner.SchemaName seqOwner.TableName ++ "." ++ QuoteIdent seqOwner.ColumnName

/-- The body of the loop of `GetSequenceColumnOwnerMap`, for one row:
`sequenceOwners[seqFQN] = columnFQN`. -/
def sequenceOwnerStep (MakeFQN : String → String → String) (QuoteIdent : String → String)
    (sequenceOwners : GoMap String String) (seqOwner : QuerySequenceOwner) :
    GoMap String String :=
  GoMap.set sequenceOwners (seqFQN MakeFQN seqOwner) (columnFQN MakeFQN QuoteIdent seqOwner)

def GetSequenceColumnOwnerMap (MakeFQN : String → String → String)
    (QuoteIdent : String → String) (connection : DBConn) : Run (GoMap String String) := do
  let query := GetSequenceColumnOwnerMapQuery
  let sequenceOwners : GoMap String String := []
  let (results, err) ← Select connection.SelectSequenceOwner query
  CheckError err
  let sequenceOwners := results.foldl (sequenceOwnerStep MakeFQN QuoteIdent) sequenceOwners
  return sequenceOwners

def GetSessionGUCs (connection : DBConn) : Run QuerySessionGUCs := do
  let result : QuerySessionGUCs := {}
  let query := "SHOW client_encoding;"
  let (result, _) ← Get connection.GetSessionGUCs result query
  let query := "SHOW standard_conforming_strings;"
  let (result, _) ← Get connection.GetSessionGUCs result query
  let query := "SHOW default_with_oids;"
  let (result, err) ← Get connection.GetSessionGUCs result query
  CheckError err
  return result

def GetProceduralLanguages (connection : DBConn) : Run (List QueryProceduralLanguage) := do
  let query := GetProceduralLanguagesQuery
  let (results, err) ← Select connection.SelectProceduralLanguage query
  CheckError err
  return results

def GetExternalProtocols (connection : DBConn) : Run (List QueryExtProtocol) := do
  let query := GetExternalProtocolsQuery
  let (results, err) ← Select connection.SelectExtProtocol query
  CheckError err
  return results

def GetOperators (NonUserSchemaFilterClause : String → String)
    (connection : DBConn) : Run (List QueryOperator) := do
  let query := GetOperatorsQuery NonUserSchemaFilterClause
  let (results, err) ← Select connection.SelectOperator query
  CheckError err
  return results

def GetOperatorFamilies (NonUserSchemaFilterClause : String → String)
    (connection : DBConn) : Run (List QueryOperatorFamily) := do
  let query := GetOperatorFamiliesQuery NonUserSchemaFilterClause
  let (results, err) ← Select connection.SelectOperatorFamily query
  CheckError err
  return results

/-- The body of the loop of `GetOperatorClassOperators`, for one row:
`operators[result.ClassOid] = append(operators[result.ClassOid], result)`. -/
def operatorStep (operators : GoMap Nat (List OperatorClassOperator))
    (result : OperatorClassOperator) : GoMap Nat (List OperatorClassOperator) :=
  GoMap.set operators result.ClassOid (GoMap.index [] operators result.ClassOid ++ [result])

def GetOperatorClassOperators (connection : DBConn) :
    Run (GoMap Nat (List OperatorClassOperator)) := do
  let query := GetOperatorClassOperatorsQuery
  let (results, err) ← Select connection.SelectOperatorClassOperator query
  CheckError err
  let operators : GoMap Nat (List OperatorClassOperator) := []
  let operators := results.foldl operatorStep operators
  return operators

/-- The body of the loop of `GetOperatorClassFunctions`, for one row:
`functions[result.ClassOid] = append(functions[result.ClassOid], result)`. -/
def functionStep (functions : GoMap Nat (List OperatorClassFunction))
    (result : OperatorClassFunction) : GoMap Nat (List OperatorClassFunction) :=
  GoMap.set functions result.ClassOid (GoMap.index [] functions result.ClassOid ++ [result])

def GetOperatorClassFunctions (connection : DBConn) :
    Run (GoMap Nat (List OperatorClassFunction)) := do
  let query := GetOperatorClassFunctionsQuery
  let (results, err) ← Select connection.SelectOperatorClassFunction query
  CheckError err
  let functions : GoMap Nat (List OperatorClassFunction) := []
  let functions := results.foldl functionStep functions
  return functions

/-- The first loop of `GetOperatorClasses`:
`for i := range results { results[i].Operators = operators[results[i].Oid] }`. -/
def attachOperators (operators : GoMap Nat (List OperatorClassOperator))
    (results : List QueryOperatorClass) : List QueryOperatorClass :=
  results.map fun r => { r with Operators := GoMap.index [] operators r.Oid }

/-- The second loop of `GetOperatorClasses`:
`for i := range results { results[i].Functions = functions[results[i].Oid] }`. -/
def attachFunctions (functions : GoMap Nat (List OperatorClassFunction))
    (results : List QueryOperatorClass) : List QueryOperatorClass :=
  results.map fun r => { r with Functions := GoMap.index [] functions r.Oid }

def GetOperatorClasses (NonUserSchemaFilterClause : String → String)
    (connection : DBConn) : Run (List QueryOperatorClass) := do
  let query := GetOperatorClassesQuery NonUserSchemaFilterClause
  let (results, err) ← Select connection.SelectOperatorClass query
  CheckError err
  let operators ← GetOperatorClassOperators connection
  let results := attachOperators operators results
  let functions ← GetOperatorClassFunctions connection
  let results := attachFunctions functions results
  return results

def GetConversions (NonUserSchemaFilterClause : String → String)
    (connection : DBConn) : Run (List Conversion) := do
  let query := GetConversionsQuery NonUserSchemaFilterClause
  let (results, err) ← Select connection.SelectConversion query
  CheckError err
  return results

/-! ## Grouping rows by key -/

/-- The sum of the lengths of the groups stored in a map. -/
def groupSizes {K α : Type} (m : GoMap K (List α)) : Nat :=
  (m.map fun e => e.2.length).sum

/-- One pass of a grouping loop, `m[key r] = append(m[key r], r)`; both child
loops are instances of it. -/
def groupStep {K α : Type} [DecidableEq K] (key : α → K)
    (m : GoMap K (List α)) (r : α) : GoMap K (List α) :=
  GoMap.set m (key r) (GoMap.index [] m (key r) ++ [r])

/-! ## Statement vocabulary -/

/-- The text `query` contains `clause` as the condition that follows a `WHERE`. -/
def hasWhereClause (query clause : String) : Prop :=
  ∃ pre suf : String, query = pre ++ "WHERE " ++ clause ++ suf

/-- The text `query` contains `clause` somewhere. -/
def containsText (query clause : String) : Prop :=
  ∃ pre suf : String, query = pre ++ clause ++ suf

/-- Two operator class records agree in every field other than `Operators`
and `Functions`. -/
def sameClassFields (a b : QueryOperatorClass) : Prop :=
  a.Oid = b.Oid ∧ a.ClassSchema = b.ClassSchema ∧ a.ClassName = b.ClassName ∧
  a.FamilySchema = b.FamilySchema ∧ a.FamilyName = b.FamilyName ∧
  a.IndexMethod = b.IndexMethod ∧ a.Type_ = b.Type_ ∧ a.Default = b.Default ∧
  a.StorageType = b.StorageType

/-- Operator rows in ascending order of `StrategyNumber`. -/
def strategyAscending (rows : List OperatorClassOperator) : Prop :=
  rows.Pairwise fun a b => a.StrategyNumber ≤ b.StrategyNumber

/-- Function rows in ascending order of `SupportNumber`. -/
def supportAscending (rows : List OperatorClassFunction) : Prop :=
  rows.Pairwise fun a b => a.SupportNumber ≤ b.SupportNumber

/-! ## Sample inputs -/

/-- A sample value of `NonUserSchemaFilterClause`: one of the patterns of the
exclusion list, on the given alias. -/
def sampleFilter (alias_ : String) : String :=
  alias_ ++ ".nspname NOT LIKE 'pg_temp_%'"

/-- A sample `utils.QuoteIdent`: always quotes. -/
def sampleQuoteIdent (ident : String) : String :=
  "\"" ++ ident ++ "\""

/-- A sample `MakeFQN`: schema and name joined by a dot. -/
def sampleMakeFQN (schema name : String) : String :=
  schema ++ "." ++ name

/-- A connection to an empty catalog: every query succeeds with no rows and
every `Get` leaves its destination as it was. -/
def emptyConn : DBConn where
  SelectSchema := fun _ => ([], none)
  SelectConstraint := fun _ => ([], none)
  SelectRelation := fun _ => ([], none)
  SelectSequenceOwner := fun _ => ([], none)
  SelectProceduralLanguage := fun _ => ([], none)
  SelectExtProtocol := fun _ => ([], none)
  SelectOperator := fun _ => ([], none)
  SelectOperatorFamily := fun _ => ([], none)
  SelectOperatorClass := fun _ => ([], none)
  SelectOperatorClassOperator := fun _ => ([], none)
  SelectOperatorClassFunction := fun _ => ([], none)
  SelectConversion := fun _ => ([], none)
  GetSequenceDefinition := fun dest _ => (dest, none)
  GetSessionGUCs := fun dest _ => (dest, none)

/-- An operator class with oid 100. -/
def class100 : QueryOperatorClass :=
  { Oid := 100, ClassSchema := "public", ClassName := "int_ops", FamilySchema := "public",
    FamilyName := "int_fam", IndexMethod := "btree", Type_ := "integer", Default := true,
    StorageType := "-" }

/-- An operator class with oid 200 that has no members. -/
def class200 : QueryOperatorClass :=
  { Oid := 200, ClassSchema := "public", ClassName := "text_ops", FamilySchema := "public",
    FamilyName := "text_fam", IndexMethod := "hash", Type_ := "text", Default := false,
    StorageType := "-" }

def op100s1 : OperatorClassOperator :=
  { ClassOid := 100, StrategyNumber := 1, Operator := "<(integer,integer)", Recheck := false }

def op100s3 : OperatorClassOperator :=
  { ClassOid := 100, StrategyNumber := 3, Operator := "=(integer,integer)", Recheck := false }

/-- An operator row whose class, 300, is not among the parents. -/
def op300s2 : OperatorClassOperator :=
  { ClassOid := 300, StrategyNumber := 2, Operator := "<=(text,text)", Recheck := true }

def fn100s1 : OperatorClassFunction :=
  { ClassOid := 100, SupportNumber := 1, FunctionName := "btint4cmp(integer,integer)" }

/-- A function row whose class, 300, is not among the parents. -/
def fn300s1 : OperatorClassFunction :=
  { ClassOid := 300, SupportNumber := 1, FunctionName := "hashtext(text)" }

/-- The scenario of the spec: class 100 with operators at strategies 1 and 3
and one function at support 1. -/
def scenarioConn : DBConn :=
  { emptyConn with
    SelectOperatorClass := fun _ => ([class100], none)
    SelectOperatorClassOperator := fun _ => ([op100s1, op100s3], none)
    SelectOperatorClassFunction := fun _ => ([fn100s1], none) }

/-- Two classes, one of them without members, and child rows of a class 300
that is not among the parents. -/
def orphanConn : DBConn :=
  { emptyConn with
    SelectOperatorClass := fun _ => ([class100, class200], none)
    SelectOperatorClassOperator := fun _ => ([op100s1, op300s2, op100s3], none)
    SelectOperatorClassFunction := fun _ => ([fn100s1, fn300s1], none) }

/-- A connection on which the parent query of operator classes fails. -/
def parentFailsConn : DBConn :=
  { scenarioConn with
    SelectOperatorClass := fun _ => ([], some "relation pg_opclass does not exist") }

/-- A connection on which the operator child query fails. -/
def operatorsFailConn : DBConn :=
  { scenarioConn with
    SelectOperatorClassOperator := fun _ => ([op100s1], some "connection reset") }

/-- A connection on which the function child query fails. -/
def functionsFailConn : DBConn :=
  { scenarioConn with
    SelectOperatorClassFunction := fun _ => ([], some "column amprocnum does not exist") }

/-- A sequence `public.seq1` linked to two columns, with `public.seq2` in between. -/
def ownerRows : List QuerySequenceOwner :=
  [ { SchemaName := "public", SequenceName := "seq1", TableName := "t1", ColumnName := "a" },
    { SchemaName := "public", SequenceName := "seq2", TableName := "t2", ColumnName := "b" },
    { SchemaName := "public", SequenceName := "seq1", TableName := "t3", ColumnName := "c" } ]

/-- A connection delivering `ownerRows` to the sequence owner query. -/
def ownerConn : DBConn :=
  { emptyConn with SelectSequenceOwner := fun _ => (ownerRows, none) }

/-- A connection delivering one or two rows to each plain list query. -/
def catalogConn : DBConn :=
  { emptyConn with
    SelectSchema := fun _ => ([{ Oid := 2200, Name := "public" }], none)
    SelectConstraint := fun _ =>
      ([{ Oid := 1, ConName := "t_pkey", ConType := "p", ConDef := "PRIMARY KEY (a)",
          OwningObject := "public.t" },
        { Oid := 2, ConName := "u_check", ConType := "c", ConDef := "CHECK (b > 0)",
          OwningObject := "public.u" }], none)
    SelectRelation := fun _ =>
      ([{ SchemaOid := 2200, RelationOid := 5, SchemaName := "public",
          RelationName := "seq1" }], none)
    SelectProceduralLanguage := fun _ =>
      ([{ Oid := 7, Name := "plpgsql", Owner := "gpadmin", IsPl := true }], none)
    SelectExtProtocol := fun _ => ([{ Oid := 8, Name := "s3", Owner := "gpadmin" }], none)
    SelectOperator := fun _ =>
      ([{ Oid := 9, SchemaName := "public", Name := "##" }], none)
    SelectOperatorFamily := fun _ =>
      ([{ Oid := 10, SchemaName := "public", Name := "fam", IndexMethod := "btree" }], none)
    SelectConversion := fun _ =>
      ([{ Oid := 11, Schema := "public", Name := "conv" }], none) }

/-- A connection on which `SHOW client_encoding;` fails and the two later
`SHOW` queries succeed, each writing its own field of the destination. -/
def gucFirstFailsConn : DBConn :=
  { emptyConn with
    GetSessionGUCs := fun dest query =>
      if query = "SHOW client_encoding;" then (dest, some "connection lost")
      else if query = "SHOW standard_conforming_strings;" then
        ({ dest with StdConformingStrings := "on" }, none)
      else if query = "SHOW default_with_oids;" then
        ({ dest with DefaultWithOids := "off" }, none)
      else (dest, some "unrecognized configuration parameter") }

/-! ## Evaluation of runs -/

theorem Run.bind_apply {α β : Type} (m : Run α) (f : α → Run β) (log : List String) :
    (m >>= f) log = Run.andThen m f log := rfl

theorem Run.pure_apply {α : Type} (a : α) (log : List String) :
    (pure a : Run α) log = (Except.ok a, log) := rfl

/-- A `Select` followed by `CheckError` and a continuation: one query is
logged, and the continuation runs on the rows iff the error is `nil`. -/
theorem select_check_apply {α β : Type} (answer : String → List α × Option DBError)
    (query : String) (k : List α → Run β) (log : List String) :
    (do let (results, err) ← Select answer query
        CheckError err
        k results : Run β) log =
      match (answer query).2 with
      | none => k (answer query).1 (log ++ [query])
      | some e => (Except.error e, log ++ [query]) := by
  simp only [Run.bind_apply, Run.andThen, Select, CheckError, bind_pure_comp]
  rcases h : answer query with ⟨rows, _ | e⟩ <;> simp [h]

/-! ## Go maps: reads after writes -/

namespace GoMap

variable {K V : Type} [DecidableEq K]

theorem find?_set (m : GoMap K V) (k k' : K) (v : V) :
    find? (set m k v) k' = if k = k' then some v else find? m k' := by
  induction m with
  | nil => simp [set, find?]
  | cons e rest ih =>
    obtain ⟨k0, v0⟩ := e
    by_cases h0 : k0 = k
    · subst h0
      by_cases h1 : k0 = k' <;> simp [set, find?, h1]
    · by_cases h1 : k0 = k'
      · subst h1
        have : ¬ k = k0 := fun h => h0 h.symm
        simp [set, find?, h0, this]
      · simp [set, find?, h0, h1, ih]

theorem mem_keys_iff (m : GoMap K V) (k : K) :
    k ∈ keys m ↔ ∃ v, find? m k = some v := by
  induction m with
  | nil => simp [keys, find?]
  | cons e rest ih =>
    obtain ⟨k0, v0⟩ := e
    by_cases h0 : k0 = k
    · subst h0
      simp [keys, find?]
    · have h1 : ¬ k = k0 := fun h => h0 h.symm
      have ih' : k ∈ List.map Prod.fst rest ↔ ∃ v, find? rest k = some v := ih
      simp [keys, find?, h0, h1, ih']

theorem keys_set (m : GoMap K V) (k : K) (v : V) :
    keys (set m k v) = if k ∈ keys m then keys m else keys m ++ [k] := by
  induction m with
  | nil => simp [set, keys]
  | cons e rest ih =>
    obtain ⟨k0, v0⟩ := e
    have ih' : List.map Prod.fst (set rest k v)
        = if k ∈ List.map Prod.fst rest then List.map Prod.fst rest
          else List.map Prod.fst rest ++ [k] := ih
    by_cases h0 : k0 = k
    · subst h0
      simp [set, keys]
    · have h1 : ¬ k = k0 := fun h => h0 h.symm
      by_cases h2 : k ∈ List.map Prod.fst rest
      · simp [set, keys, h0, h1, ih', h2]
      · simp [set, keys, h0, h1, ih', h2]

theorem nodup_keys_set (m : GoMap K V) (k : K) (v : V) (h : (keys m).Nodup) :
    (keys (set m k v)).Nodup := by
  rw [keys_set]
  by_cases hk : k ∈ keys m
  · simpa [hk] using h
  · simp only [hk, if_false]
    exact List.Nodup.append h (List.nodup_singleton k) (by simpa using hk)

theorem index_set (zero : V) (m : GoMap K V) (k k' : K) (v : V) :
    index zero (set m k v) k' = if k = k' then v else index zero m k' := by
  unfold index
  rw [find?_set]
  split <;> rfl

end GoMap

/-! ## Grouping loops -/

section Grouping

variable {K α : Type} [DecidableEq K] (key : α → K)

theorem index_groupStep (m : GoMap K (List α)) (r : α) (k : K) :
    GoMap.index [] (groupStep key m r) k
      = GoMap.index [] m k ++ (if key r = k then [r] else []) := by
  unfold groupStep
  rw [GoMap.index_set]
  by_cases h : key r = k
  · simp [h]
  · simp [h]

theorem index_group (rows : List α) (m : GoMap K (List α)) (k : K) :
    GoMap.index [] (rows.foldl (groupStep key) m) k
      = GoMap.index [] m k ++ rows.filter (fun r => decide (key r = k)) := by
  induction rows generalizing m with
  | nil => simp
  | cons r rest ih =>
    rw [List.foldl_cons, ih, index_groupStep]
    by_cases h : key r = k
    · simp [h]
    · simp [h]

theorem mem_keys_group (rows : List α) (m : GoMap K (List α)) (k : K) :
    k ∈ GoMap.keys (rows.foldl (groupStep key) m)
      ↔ k ∈ GoMap.keys m ∨ ∃ r ∈ rows, key r = k := by
  induction rows generalizing m with
  | nil => simp
  | cons r rest ih =>
    rw [List.foldl_cons, ih]
    unfold groupStep
    rw [GoMap.keys_set]
    by_cases h : key r ∈ GoMap.keys m
    · simp only [h, if_true, List.mem_cons, exists_eq_or_imp]
      constructor
      · rintro (h1 | h1)
        · exact Or.inl h1
        · exact Or.inr (Or.inr h1)
      · rintro (h1 | h1 | h1)
        · exact Or.inl h1
        · exact Or.inl (h1 ▸ h)
        · exact Or.inr h1
    · simp only [h, if_false, List.mem_append, List.mem_cons, List.not_mem_nil, or_false,
        exists_eq_or_imp]
      constructor
      · rintro ((h1 | h1) | h1)
        · exact Or.inl h1
        · exact Or.inr (Or.inl h1.symm)
        · exact Or.inr (Or.inr h1)
      · rintro (h1 | h1 | h1)
        · exact Or.inl (Or.inl h1)
        · exact Or.inl (Or.inr h1.symm)
        · exact Or.inr h1

theorem nodup_keys_group (rows : List α) (m : GoMap K (List α))
    (h : (GoMap.keys m).Nodup) : (GoMap.keys (rows.foldl (groupStep key) m)).Nodup := by
  induction rows generalizing m with
  | nil => simpa using h
  | cons r rest ih =>
    rw [List.foldl_cons]
    exact ih _ (GoMap.nodup_keys_set m _ _ h)

theorem groupSizes_groupStep (m : GoMap K (List α)) (r : α) :
    groupSizes (groupStep key m r) = groupSizes m + 1 := by
  unfold groupStep
  induction m with
  | nil => simp [GoMap.set, GoMap.index, GoMap.find?, groupSizes]
  | cons e rest ih =>
    obtain ⟨k0, v0⟩ := e
    by_cases h0 : k0 = key r
    · simp [GoMap.set, GoMap.index, GoMap.find?, groupSizes, h0]
      omega
    · have ih' : groupSizes (GoMap.set rest (key r) (GoMap.index [] rest (key r) ++ [r]))
          = groupSizes rest + 1 := ih
      have e1 : GoMap.index [] ((k0, v0) :: rest) (key r) = GoMap.index [] rest (key r) := by
        simp [GoMap.index, GoMap.find?, h0]
      rw [e1]
      simp only [GoMap.set, h0, if_false]
      simp only [groupSizes, List.map_cons, List.sum_cons] at ih' ⊢
      omega

theorem groupSizes_group (rows : List α) (m : GoMap K (List α)) :
    groupSizes (rows.foldl (groupStep key) m) = groupSizes m + rows.length := by
  induction rows generalizing m with
  | nil => simp
  | cons r rest ih =>
    rw [List.foldl_cons, ih, groupSizes_groupStep, List.length_cons]
    omega

theorem find?_group_ne_nil (rows : List α) (m : GoMap K (List α))
    (h : ∀ k, GoMap.find? m k ≠ some []) (k : K) :
    GoMap.find? (rows.foldl (groupStep key) m) k ≠ some [] := by
  induction rows generalizing m with
  | nil => simpa using h k
  | cons r rest ih =>
    rw [List.foldl_cons]
    apply ih
    intro k'
    unfold groupStep
    rw [GoMap.find?_set]
    by_cases h1 : key r = k'
    · simp [h1]
    · simpa [h1] using h k'

/-- What a grouping loop started on the empty map stores under a key: the
rows of that key in row order, and no entry when there is none. -/
theorem find?_group (rows : List α) (k : K) :
    GoMap.find? (rows.foldl (groupStep key) []) k
      = if ∃ r ∈ rows, key r = k then some (rows.filter (fun r => decide (key r = k)))
        else none := by
  have hi := index_group key rows [] k
  have hk := mem_keys_group key rows [] k
  rw [GoMap.mem_keys_iff] at hk
  by_cases hex : ∃ r ∈ rows, key r = k
  · obtain ⟨v, hv⟩ := hk.mpr (Or.inr hex)
    have hv' : v = rows.filter (fun r => decide (key r = k)) := by
      simpa [GoMap.index, hv, GoMap.find?] using hi
    rw [if_pos hex, hv, hv']
  · rw [if_neg hex]
    rcases hf : GoMap.find? (rows.foldl (groupStep key) []) k with _ | v
    · rfl
    · rcases hk.mp ⟨v, hf⟩ with h1 | h1
      · simp [GoMap.keys] at h1
      · exact absurd h1 hex

end Grouping

theorem operatorStep_eq : operatorStep = groupStep OperatorClassOperator.ClassOid := rfl

theorem functionStep_eq : functionStep = groupStep OperatorClassFunction.ClassOid := rfl

/-! ## Evaluation of the query functions -/

theorem GetAllUserSchemas_apply (F : String → String) (c : DBConn) (log : List String) :
    GetAllUserSchemas F c log =
      match (c.SelectSchema (GetAllUserSchemasQuery F)).2 with
      | none => (Except.ok (c.SelectSchema (GetAllUserSchemasQuery F)).1, log ++ [GetAllUserSchemasQuery F])
      | some e => (Except.error e, log ++ [GetAllUserSchemasQuery F]) :=
  select_check_apply _ _ (fun r => pure r) log

theorem GetConstraints_apply (F : String → String) (c : DBConn) (log : List String) :
    GetConstraints F c log =
      match (c.SelectConstraint (GetConstraintsQuery F)).2 with
      | none => (Except.ok (c.SelectConstraint (GetConstraintsQuery F)).1, log ++ [GetConstraintsQuery F])
      | some e => (Except.error e, log ++ [GetConstraintsQuery F]) :=
  select_check_apply _ _ (fun r => pure r) log

theorem GetAllSequenceRelations_apply (c : DBConn) (log : List String) :
    GetAllSequenceRelations c log =
      match (c.SelectRelation GetAllSequenceRelationsQuery).2 with
      | none => (Except.ok (c.SelectRelation GetAllSequenceRelationsQuery).1, log ++ [GetAllSequenceRelationsQuery])
      | some e => (Except.error e, log ++ [GetAllSequenceRelationsQuery]) :=
  select_check_apply _ _ (fun r => pure r) log

theorem GetProceduralLanguages_apply (c : DBConn) (log : List String) :
    GetProceduralLanguages c log =
      match (c.SelectProceduralLanguage GetProceduralLanguagesQuery).2 with
      | none => (Except.ok (c.SelectProceduralLanguage GetProceduralLanguagesQuery).1, log ++ [GetProceduralLanguagesQuery])
      | some e => (Except.error e, log ++ [GetProceduralLanguagesQuery]) :=
  select_check_apply _ _ (fun r => pure r) log

theorem GetExternalProtocols_apply (c : DBConn) (log : List String) :
    GetExternalProtocols c log =
      match (c.SelectExtProtocol GetExternalProtocolsQuery).2 with
      | none => (Except.ok (c.SelectExtProtocol GetExternalProtocolsQuery).1, log ++ [GetExternalProtocolsQuery])
      | some e => (Except.error e, log ++ [GetExternalProtocolsQuery]) :=
  select_check_apply _ _ (fun r => pure r) log

theorem GetOperators_apply (F : String → String) (c : DBConn) (log : List String) :
    GetOperators F c log =
      match (c.SelectOperator (GetOperatorsQuery F)).2 with
      | none => (Except.ok (c.SelectOperator (GetOperatorsQuery F)).1, log ++ [GetOperatorsQuery F])
      | some e => (Except.error e, log ++ [GetOperatorsQuery F]) :=
  select_check_apply _ _ (fun r => pure r) log

theorem GetOperatorFamilies_apply (F : String → String) (c : DBConn) (log : List String) :
    GetOperatorFamilies F c log =
      match (c.SelectOperatorFamily (GetOperatorFamiliesQuery F)).2 with
      | none => (Except.ok (c.SelectOperatorFamily (GetOperatorFamiliesQuery F)).1, log ++ [GetOperatorFamiliesQuery F])
      | some e => (Except.error e, log ++ [GetOperatorFamiliesQuery F]) :=
  select_check_apply _ _ (fun r => pure r) log

theorem GetConversions_apply (F : String → String) (c : DBConn) (log : List String) :
    GetConversions F c log =
      match (c.SelectConversion (GetConversionsQuery F)).2 with
      | none => (Except.ok (c.SelectConversion (GetConversionsQuery F)).1, log ++ [GetConversionsQuery F])
      | some e => (Except.error e, log ++ [GetConversionsQuery F]) :=
  select_check_apply _ _ (fun r => pure r) log

theorem GetSequenceColumnOwnerMap_apply (MakeFQN : String → String → String)
    (QuoteIdent : String → String) (c : DBConn) (log : List String) :
    GetSequenceColumnOwnerMap MakeFQN QuoteIdent c log =
      match (c.SelectSequenceOwner GetSequenceColumnOwnerMapQuery).2 with
      | none => (Except.ok
          ((c.SelectSequenceOwner GetSequenceColumnOwnerMapQuery).1.foldl
            (sequenceOwnerStep MakeFQN QuoteIdent) []),
          log ++ [GetSequenceColumnOwnerMapQuery])
      | some e => (Except.error e, log ++ [GetSequenceColumnOwnerMapQuery]) :=
  select_check_apply _ _ (fun r => pure (r.foldl (sequenceOwnerStep MakeFQN QuoteIdent) [])) log

theorem GetSequenceDefinition_apply (c : DBConn) (seqName : String) (log : List String) :
    GetSequenceDefinition c seqName log =
      match (c.GetSequenceDefinition {} ("SELECT * FROM " ++ seqName)).2 with
      | none => (Except.ok (c.GetSequenceDefinition {} ("SELECT * FROM " ++ seqName)).1,
          log ++ ["SELECT * FROM " ++ seqName])
      | some e => (Except.error e, log ++ ["SELECT * FROM " ++ seqName]) := by
  simp only [GetSequenceDefinition, Run.bind_apply, Run.andThen, Get, CheckError]
  rcases h : (c.GetSequenceDefinition {} ("SELECT * FROM " ++ seqName)) with ⟨r, _ | e⟩ <;> rfl

/-- The last of the three answers `GetSessionGUCs` receives: each `Get` writes
into the destination left by the one before. -/
theorem GetSessionGUCs_apply (c : DBConn) (log : List String) :
    GetSessionGUCs c log =
      match (c.GetSessionGUCs
          (c.GetSessionGUCs (c.GetSessionGUCs {} "SHOW client_encoding;").1
            "SHOW standard_conforming_strings;").1 "SHOW default_with_oids;").2 with
      | none => (Except.ok (c.GetSessionGUCs
          (c.GetSessionGUCs (c.GetSessionGUCs {} "SHOW client_encoding;").1
            "SHOW standard_conforming_strings;").1 "SHOW default_with_oids;").1,
          log ++ ["SHOW client_encoding;"] ++ ["SHOW standard_conforming_strings;"]
            ++ ["SHOW default_with_oids;"])
      | some e => (Except.error e,
          log ++ ["SHOW client_encoding;"] ++ ["SHOW standard_conforming_strings;"]
            ++ ["SHOW default_with_oids;"]) := by
  simp only [GetSessionGUCs, Run.bind_apply, Run.andThen, Get, CheckError]
  rcases h : (c.GetSessionGUCs
          (c.GetSessionGUCs (c.GetSessionGUCs {} "SHOW client_encoding;").1
            "SHOW standard_conforming_strings;").1 "SHOW default_with_oids;") with ⟨r, _ | e⟩ <;> rfl

theorem GetOperatorClassOperators_apply (c : DBConn) (log : List String) :
    GetOperatorClassOperators c log =
      match (c.SelectOperatorClassOperator GetOperatorClassOperatorsQuery).2 with
      | none => (Except.ok
          ((c.SelectOperatorClassOperator GetOperatorClassOperatorsQuery).1.foldl operatorStep []),
          log ++ [GetOperatorClassOperatorsQuery])
      | some e => (Except.error e, log ++ [GetOperatorClassOperatorsQuery]) :=
  select_check_apply _ _ (fun r => pure (r.foldl operatorStep [])) log

theorem GetOperatorClassFunctions_apply (c : DBConn) (log : List String) :
    GetOperatorClassFunctions c log =
      match (c.SelectOperatorClassFunction GetOperatorClassFunctionsQuery).2 with
      | none => (Except.ok
          ((c.SelectOperatorClassFunction GetOperatorClassFunctionsQuery).1.foldl functionStep []),
          log ++ [GetOperatorClassFunctionsQuery])
      | some e => (Except.error e, log ++ [GetOperatorClassFunctionsQuery]) :=
  select_check_apply _ _ (fun r => pure (r.foldl functionStep [])) log

theorem GetOperatorClasses_apply (F : String → String) (c : DBConn) (log : List String) :
    GetOperatorClasses F c log =
      match (c.SelectOperatorClass (GetOperatorClassesQuery F)).2 with
      | some e => (Except.error e, log ++ [GetOperatorClassesQuery F])
      | none =>
        match (c.SelectOperatorClassOperator GetOperatorClassOperatorsQuery).2 with
        | some e => (Except.error e,
            log ++ [GetOperatorClassesQuery F] ++ [GetOperatorClassOperatorsQuery])
        | none =>
          match (c.SelectOperatorClassFunction GetOperatorClassFunctionsQuery).2 with
          | some e => (Except.error e,
              log ++ [GetOperatorClassesQuery F] ++ [GetOperatorClassOperatorsQuery]
                ++ [GetOperatorClassFunctionsQuery])
          | none => (Except.ok
              (attachFunctions
                ((c.SelectOperatorClassFunction GetOperatorClassFunctionsQuery).1.foldl
                  functionStep [])
                (attachOperators
                  ((c.SelectOperatorClassOperator GetOperatorClassOperatorsQuery).1.foldl
                    operatorStep [])
                  (c.SelectOperatorClass (GetOperatorClassesQuery F)).1)),
              log ++ [GetOperatorClassesQuery F] ++ [GetOperatorClassOperatorsQuery]
                ++ [GetOperatorClassFunctionsQuery]) := by
  refine (select_check_apply c.SelectOperatorClass (GetOperatorClassesQuery F)
    (fun results => do
      let operators ← GetOperatorClassOperators c
      let functions ← GetOperatorClassFunctions c
      pure (attachFunctions functions (attachOperators operators results))) log).trans ?_
  rcases (c.SelectOperatorClass (GetOperatorClassesQuery F)).2 with _ | e
  · simp only [Run.bind_apply, Run.andThen, GetOperatorClassOperators_apply]
    rcases (c.SelectOperatorClassOperator GetOperatorClassOperatorsQuery).2 with _ | e
    · simp only [GetOperatorClassFunctions_apply]
      rcases (c.SelectOperatorClassFunction GetOperatorClassFunctionsQuery).2 with _ | e
      · rfl
      · rfl
    · rfl
  · rfl

/-! ## Operator classes and their members -/

theorem index_operators (rows : List OperatorClassOperator) (k : Nat) :
    GoMap.index [] (rows.foldl operatorStep []) k
      = rows.filter (fun o => decide (o.ClassOid = k)) := by
  rw [operatorStep_eq, index_group]
  simp [GoMap.index, GoMap.find?]

theorem index_functions (rows : List OperatorClassFunction) (k : Nat) :
    GoMap.index [] (rows.foldl functionStep []) k
      = rows.filter (fun f => decide (f.ClassOid = k)) := by
  rw [functionStep_eq, index_group]
  simp [GoMap.index, GoMap.find?]

/-- What `GetOperatorClasses` returns when its three queries succeed. -/
theorem GetOperatorClasses_ok (F : String → String) (c : DBConn) (log : List String)
    (parents : List QueryOperatorClass) (ops : List OperatorClassOperator)
    (fns : List OperatorClassFunction)
    (hp : c.SelectOperatorClass (GetOperatorClassesQuery F) = (parents, none))
    (ho : c.SelectOperatorClassOperator GetOperatorClassOperatorsQuery = (ops, none))
    (hf : c.SelectOperatorClassFunction GetOperatorClassFunctionsQuery = (fns, none)) :
    (GetOperatorClasses F c log).1 = Except.ok
      (attachFunctions (fns.foldl functionStep [])
        (attachOperators (ops.foldl operatorStep []) parents)) := by
  rw [GetOperatorClasses_apply, hp, ho, hf]

/-- C1: when the three queries of `GetOperatorClasses` deliver the parent rows,
the operator rows and the function rows, every returned record `C` has as
`Operators` exactly the operator rows whose `ClassOid` is `C.Oid`, in row order
and with their multiplicity, and as `Functions` exactly the function rows whose
`ClassOid` is `C.Oid`; a record without matching child rows gets empty lists. -/
theorem GetOperatorClasses_members_exact (F : String → String) (c : DBConn)
    (log : List String) (parents : List QueryOperatorClass)
    (ops : List OperatorClassOperator) (fns : List OperatorClassFunction)
    (hp : c.SelectOperatorClass (GetOperatorClassesQuery F) = (parents, none))
    (ho : c.SelectOperatorClassOperator GetOperatorClassOperatorsQuery = (ops, none))
    (hf : c.SelectOperatorClassFunction GetOperatorClassFunctionsQuery = (fns, none)) :
    ∃ res, (GetOperatorClasses F c log).1 = Except.ok res ∧
      ∀ C ∈ res,
        C.Operators = ops.filter (fun o => decide (o.ClassOid = C.Oid)) ∧
        C.Functions = fns.filter (fun f => decide (f.ClassOid = C.Oid)) ∧
        ((∀ o ∈ ops, o.ClassOid ≠ C.Oid) → C.Operators = []) ∧
        ((∀ f ∈ fns, f.ClassOid ≠ C.Oid) → C.Functions = []) := by
  refine ⟨_, GetOperatorClasses_ok F c log parents ops fns hp ho hf, ?_⟩
  intro C hC
  simp only [attachFunctions, attachOperators, List.map_map, List.mem_map,
    Function.comp_apply] at hC
  obtain ⟨P, _, rfl⟩ := hC
  have h1 := index_operators ops P.Oid
  have h2 := index_functions fns P.Oid
  refine ⟨h1, h2, ?_, ?_⟩
  · intro hno
    show GoMap.index [] (ops.foldl operatorStep []) P.Oid = []
    rw [h1, List.filter_eq_nil_iff]
    intro o ho'
    simpa using hno o ho'
  · intro hno
    show GoMap.index [] (fns.foldl functionStep []) P.Oid = []
    rw [h2, List.filter_eq_nil_iff]
    intro f hf'
    simpa using hno f hf'

/-- The scenario of C1: class 100, operator rows at strategies 1 and 3 and one
function row at support 1 give `Operators` of length 2 and `Functions` of
length 1. -/
theorem GetOperatorClasses_members_exact_witness :
    (∃ res, (GetOperatorClasses sampleFilter scenarioConn []).1 = Except.ok res ∧
      ∀ C ∈ res,
        C.Operators = [op100s1, op100s3].filter (fun o => decide (o.ClassOid = C.Oid)) ∧
        C.Functions = [fn100s1].filter (fun f => decide (f.ClassOid = C.Oid)) ∧
        ((∀ o ∈ [op100s1, op100s3], o.ClassOid ≠ C.Oid) → C.Operators = []) ∧
        ((∀ f ∈ [fn100s1], f.ClassOid ≠ C.Oid) → C.Functions = [])) ∧
    (GetOperatorClasses sampleFilter scenarioConn []).1 = Except.ok
      [{ class100 with Operators := [op100s1, op100s3], Functions := [fn100s1] }] ∧
    [op100s1, op100s3].length = 2 ∧ [fn100s1].length = 1 :=
  ⟨GetOperatorClasses_members_exact sampleFilter scenarioConn [] [class100]
      [op100s1, op100s3] [fn100s1] rfl rfl rfl, rfl, rfl, rfl⟩

theorem attach_length (operators : GoMap Nat (List OperatorClassOperator))
    (functions : GoMap Nat (List OperatorClassFunction)) (parents : List QueryOperatorClass) :
    (attachFunctions functions (attachOperators operators parents)).length = parents.length := by
  simp [attachFunctions, attachOperators]

theorem attach_getElem? (operators : GoMap Nat (List OperatorClassOperator))
    (functions : GoMap Nat (List OperatorClassFunction)) (parents : List QueryOperatorClass)
    (i : Nat) (P : QueryOperatorClass) (h : parents[i]? = some P) :
    (attachFunctions functions (attachOperators operators parents))[i]?
      = some { P with Operators := GoMap.index [] operators P.Oid,
                      Functions := GoMap.index [] functions P.Oid } := by
  simp [attachFunctions, attachOperators, h]

/-- C3: when its three queries succeed, `GetOperatorClasses` returns a list of
the same length as the parent row list, and the record at every index agrees
with the parent row at that index in every field other than `Operators` and
`Functions`: parents are neither reordered, dropped nor duplicated. -/
theorem GetOperatorClasses_keeps_parents (F : String → String) (c : DBConn)
    (log : List String) (parents : List QueryOperatorClass)
    (ops : List OperatorClassOperator) (fns : List OperatorClassFunction)
    (hp : c.SelectOperatorClass (GetOperatorClassesQuery F) = (parents, none))
    (ho : c.SelectOperatorClassOperator GetOperatorClassOperatorsQuery = (ops, none))
    (hf : c.SelectOperatorClassFunction GetOperatorClassFunctionsQuery = (fns, none)) :
    ∃ res, (GetOperatorClasses F c log).1 = Except.ok res ∧
      res.length = parents.length ∧
      ∀ (i : Nat) (P : QueryOperatorClass), parents[i]? = some P →
        ∃ C, res[i]? = some C ∧ sameClassFields C P := by
  refine ⟨_, GetOperatorClasses_ok F c log parents ops fns hp ho hf, attach_length _ _ _, ?_⟩
  intro i P hP
  refine ⟨_, attach_getElem? _ _ parents i P hP, ?_⟩
  simp [sameClassFields]

/-- Two parents, the second without members: both come back, in order. -/
theorem GetOperatorClasses_keeps_parents_witness :
    (∃ res, (GetOperatorClasses sampleFilter orphanConn []).1 = Except.ok res ∧
      res.length = [class100, class200].length ∧
      ∀ (i : Nat) (P : QueryOperatorClass), [class100, class200][i]? = some P →
        ∃ C, res[i]? = some C ∧ sameClassFields C P) ∧
    (GetOperatorClasses sampleFilter orphanConn []).1 = Except.ok
      [{ class100 with Operators := [op100s1, op100s3], Functions := [fn100s1] }, class200] :=
  ⟨GetOperatorClasses_keeps_parents sampleFilter orphanConn [] [class100, class200]
      [op100s1, op300s2, op100s3] [fn100s1, fn300s1] rfl rfl rfl, rfl⟩

/-- C5: `GetOperatorClasses` is all-or-nothing. If the parent query fails, or
the parent query succeeds and the operator child query fails, or both succeed
and the function child query fails, the run fails with that error and returns
no list; it returns a list only when all three queries succeeded. -/
theorem GetOperatorClasses_all_or_nothing (F : String → String) (c : DBConn)
    (log : List String) :
    (∀ e, (c.SelectOperatorClass (GetOperatorClassesQuery F)).2 = some e →
      (GetOperatorClasses F c log).1 = Except.error e) ∧
    (∀ e, (c.SelectOperatorClass (GetOperatorClassesQuery F)).2 = none →
      (c.SelectOperatorClassOperator GetOperatorClassOperatorsQuery).2 = some e →
      (GetOperatorClasses F c log).1 = Except.error e) ∧
    (∀ e, (c.SelectOperatorClass (GetOperatorClassesQuery F)).2 = none →
      (c.SelectOperatorClassOperator GetOperatorClassOperatorsQuery).2 = none →
      (c.SelectOperatorClassFunction GetOperatorClassFunctionsQuery).2 = some e →
      (GetOperatorClasses F c log).1 = Except.error e) ∧
    (∀ res, (GetOperatorClasses F c log).1 = Except.ok res →
      (c.SelectOperatorClass (GetOperatorClassesQuery F)).2 = none ∧
      (c.SelectOperatorClassOperator GetOperatorClassOperatorsQuery).2 = none ∧
      (c.SelectOperatorClassFunction GetOperatorClassFunctionsQuery).2 = none) := by
  refine ⟨?_, ?_, ?_, ?_⟩
  · intro e h1
    rw [GetOperatorClasses_apply, h1]
  · intro e h1 h2
    rw [GetOperatorClasses_apply, h1, h2]
  · intro e h1 h2 h3
    rw [GetOperatorClasses_apply, h1, h2, h3]
  · intro res h
    rw [GetOperatorClasses_apply] at h
    rcases h1 : (c.SelectOperatorClass (GetOperatorClassesQuery F)).2 with _ | e
    · rcases h2 : (c.SelectOperatorClassOperator GetOperatorClassOperatorsQuery).2 with _ | e
      · rcases h3 : (c.SelectOperatorClassFunction GetOperatorClassFunctionsQuery).2
          with _ | e
        · exact ⟨rfl, rfl, rfl⟩
        · rw [h1, h2, h3] at h
          cases h
      · rw [h1, h2] at h
        cases h
    · rw [h1] at h
      cases h

/-- Each of the three queries failing in turn, and all three succeeding. -/
theorem GetOperatorClasses_all_or_nothing_witness :
    (GetOperatorClasses sampleFilter parentFailsConn []).1
      = Except.error "relation pg_opclass does not exist" ∧
    (GetOperatorClasses sampleFilter operatorsFailConn []).1
      = Except.error "connection reset" ∧
    (GetOperatorClasses sampleFilter functionsFailConn []).1
      = Except.error "column amprocnum does not exist" ∧
    ((scenarioConn.SelectOperatorClass (GetOperatorClassesQuery sampleFilter)).2 = none ∧
      (scenarioConn.SelectOperatorClassOperator GetOperatorClassOperatorsQuery).2 = none ∧
      (scenarioConn.SelectOperatorClassFunction GetOperatorClassFunctionsQuery).2 = none) :=
  ⟨(GetOperatorClasses_all_or_nothing sampleFilter parentFailsConn []).1 _ rfl,
   (GetOperatorClasses_all_or_nothing sampleFilter operatorsFailConn []).2.1 _ rfl rfl,
   (GetOperatorClasses_all_or_nothing sampleFilter functionsFailConn []).2.2.1 _ rfl rfl rfl,
   (GetOperatorClasses_all_or_nothing sampleFilter scenarioConn []).2.2.2
     [{ class100 with Operators := [op100s1, op100s3], Functions := [fn100s1] }] rfl⟩

/-! ## The maps of the child queries -/

theorem GetOperatorClassOperators_ok (c : DBConn) (log : List String)
    (ops : List OperatorClassOperator)
    (ho : c.SelectOperatorClassOperator GetOperatorClassOperatorsQuery = (ops, none)) :
    (GetOperatorClassOperators c log).1 = Except.ok (ops.foldl operatorStep []) := by
  rw [GetOperatorClassOperators_apply, ho]

theorem GetOperatorClassFunctions_ok (c : DBConn) (log : List String)
    (fns : List OperatorClassFunction)
    (hf : c.SelectOperatorClassFunction GetOperatorClassFunctionsQuery = (fns, none)) :
    (GetOperatorClassFunctions c log).1 = Except.ok (fns.foldl functionStep []) := by
  rw [GetOperatorClassFunctions_apply, hf]

theorem find?_operators (rows : List OperatorClassOperator) (k : Nat)
    (v : List OperatorClassOperator)
    (h : GoMap.find? (rows.foldl operatorStep []) k = some v) :
    v = rows.filter (fun o => decide (o.ClassOid = k)) := by
  rw [operatorStep_eq, find?_group] at h
  split at h
  · exact (Option.some.inj h).symm
  · cases h

theorem find?_functions (rows : List OperatorClassFunction) (k : Nat)
    (v : List OperatorClassFunction)
    (h : GoMap.find? (rows.foldl functionStep []) k = some v) :
    v = rows.filter (fun f => decide (f.ClassOid = k)) := by
  rw [functionStep_eq, find?_group] at h
  split at h
  · exact (Option.some.inj h).symm
  · cases h

/-- C2: if the operator rows arrive in ascending order of `StrategyNumber`,
every group of the map of `GetOperatorClassOperators` is in ascending order of
`StrategyNumber`; if the function rows arrive in ascending order of
`SupportNumber`, every group of the map of `GetOperatorClassFunctions` is in
ascending order of `SupportNumber`; and then so are `C.Operators` and
`C.Functions` of every record `C` returned by `GetOperatorClasses`. -/
theorem child_groups_ascending (F : String → String) (c : DBConn) (log : List String) :
    (∀ ops, c.SelectOperatorClassOperator GetOperatorClassOperatorsQuery = (ops, none) →
      strategyAscending ops →
      ∃ m, (GetOperatorClassOperators c log).1 = Except.ok m ∧
        ∀ k v, GoMap.find? m k = some v → strategyAscending v) ∧
    (∀ fns, c.SelectOperatorClassFunction GetOperatorClassFunctionsQuery = (fns, none) →
      supportAscending fns →
      ∃ m, (GetOperatorClassFunctions c log).1 = Except.ok m ∧
        ∀ k v, GoMap.find? m k = some v → supportAscending v) ∧
    (∀ parents ops fns,
      c.SelectOperatorClass (GetOperatorClassesQuery F) = (parents, none) →
      c.SelectOperatorClassOperator GetOperatorClassOperatorsQuery = (ops, none) →
      c.SelectOperatorClassFunction GetOperatorClassFunctionsQuery = (fns, none) →
      strategyAscending ops → supportAscending fns →
      ∃ res, (GetOperatorClasses F c log).1 = Except.ok res ∧
        ∀ C ∈ res, strategyAscending C.Operators ∧ supportAscending C.Functions) := by
  refine ⟨?_, ?_, ?_⟩
  · intro ops ho hs
    refine ⟨_, GetOperatorClassOperators_ok c log ops ho, ?_⟩
    intro k v hv
    rw [find?_operators ops k v hv]
    exact List.Pairwise.filter _ hs
  · intro fns hf hs
    refine ⟨_, GetOperatorClassFunctions_ok c log fns hf, ?_⟩
    intro k v hv
    rw [find?_functions fns k v hv]
    exact List.Pairwise.filter _ hs
  · intro parents ops fns hp ho hf hso hsf
    refine ⟨_, GetOperatorClasses_ok F c log parents ops fns hp ho hf, ?_⟩
    intro C hC
    simp only [attachFunctions, attachOperators, List.map_map, List.mem_map,
      Function.comp_apply] at hC
    obtain ⟨P, _, rfl⟩ := hC
    constructor
    · show strategyAscending (GoMap.index [] (ops.foldl operatorStep []) P.Oid)
      rw [index_operators]
      exact List.Pairwise.filter _ hso
    · show supportAscending (GoMap.index [] (fns.foldl functionStep []) P.Oid)
      rw [index_functions]
      exact List.Pairwise.filter _ hsf

theorem orphan_ops_ascending : strategyAscending [op100s1, op300s2, op100s3] := by
  simp [strategyAscending, op100s1, op300s2, op100s3]

theorem orphan_fns_ascending : supportAscending [fn100s1, fn300s1] := by
  simp [supportAscending, fn100s1, fn300s1]

/-- Operator rows at strategies 1, 2, 3 over two classes, function rows at
support 1 and 1: every group and every attached list is ascending. -/
theorem child_groups_ascending_witness :
    (∃ m, (GetOperatorClassOperators orphanConn []).1 = Except.ok m ∧
        ∀ k v, GoMap.find? m k = some v → strategyAscending v) ∧
    (∃ m, (GetOperatorClassFunctions orphanConn []).1 = Except.ok m ∧
        ∀ k v, GoMap.find? m k = some v → supportAscending v) ∧
    (∃ res, (GetOperatorClasses sampleFilter orphanConn []).1 = Except.ok res ∧
        ∀ C ∈ res, strategyAscending C.Operators ∧ supportAscending C.Functions) ∧
    (GetOperatorClassOperators orphanConn []).1
      = Except.ok [(100, [op100s1, op100s3]), (300, [op300s2])] :=
  ⟨(child_groups_ascending sampleFilter orphanConn []).1 _ rfl orphan_ops_ascending,
   (child_groups_ascending sampleFilter orphanConn []).2.1 _ rfl orphan_fns_ascending,
   (child_groups_ascending sampleFilter orphanConn []).2.2 _ _ _ rfl rfl rfl
     orphan_ops_ascending orphan_fns_ascending,
   rfl⟩

theorem group_partition {K α : Type} [DecidableEq K] (key : α → K) (rows : List α) :
    (GoMap.keys (rows.foldl (groupStep key) [])).Nodup ∧
    (∀ k, k ∈ GoMap.keys (rows.foldl (groupStep key) []) ↔ ∃ r ∈ rows, key r = k) ∧
    (∀ k, GoMap.find? (rows.foldl (groupStep key) []) k ≠ some []) ∧
    (∀ k v, GoMap.find? (rows.foldl (groupStep key) []) k = some v →
      v = rows.filter (fun r => decide (key r = k)) ∧ ∀ x ∈ v, key x = k) ∧
    groupSizes (rows.foldl (groupStep key) []) = rows.length := by
  refine ⟨?_, ?_, ?_, ?_, ?_⟩
  · exact nodup_keys_group key rows [] (by simp [GoMap.keys])
  · intro k
    rw [mem_keys_group]
    simp [GoMap.keys]
  · exact find?_group_ne_nil key rows [] (by simp [GoMap.find?])
  · intro k v hv
    rw [find?_group] at hv
    split at hv
    · have hv' := (Option.some.inj hv).symm
      refine ⟨hv', ?_⟩
      intro x hx
      rw [hv', List.mem_filter] at hx
      simpa using hx.2
    · cases hv
  · rw [groupSizes_group]
    simp [groupSizes]

/-- C10: the grouping of `GetOperatorClassOperators`, and likewise that of
`GetOperatorClassFunctions`, partitions the child rows: the map has one entry
per key, a key is present iff some row has that `ClassOid`, no key maps to an
empty list, the list under key `k` is the rows of `ClassOid` `k` (so each of
its elements has `ClassOid` `k`), and the group lengths sum to the number of
rows. So when the three queries of `GetOperatorClasses` succeed, a child row
whose `ClassOid` is the `Oid` of no parent row is in the `Operators`, or
`Functions`, of no returned record, and the call still returns its list. -/
theorem child_grouping_is_partition (F : String → String) (c : DBConn)
    (log : List String) :
    (∀ ops, c.SelectOperatorClassOperator GetOperatorClassOperatorsQuery = (ops, none) →
      ∃ m, (GetOperatorClassOperators c log).1 = Except.ok m ∧
        (GoMap.keys m).Nodup ∧
        (∀ k, k ∈ GoMap.keys m ↔ ∃ r ∈ ops, r.ClassOid = k) ∧
        (∀ k, GoMap.find? m k ≠ some []) ∧
        (∀ k v, GoMap.find? m k = some v →
          v = ops.filter (fun r => decide (r.ClassOid = k)) ∧ ∀ x ∈ v, x.ClassOid = k) ∧
        groupSizes m = ops.length) ∧
    (∀ fns, c.SelectOperatorClassFunction GetOperatorClassFunctionsQuery = (fns, none) →
      ∃ m, (GetOperatorClassFunctions c log).1 = Except.ok m ∧
        (GoMap.keys m).Nodup ∧
        (∀ k, k ∈ GoMap.keys m ↔ ∃ r ∈ fns, r.ClassOid = k) ∧
        (∀ k, GoMap.find? m k ≠ some []) ∧
        (∀ k v, GoMap.find? m k = some v →
          v = fns.filter (fun r => decide (r.ClassOid = k)) ∧ ∀ x ∈ v, x.ClassOid = k) ∧
        groupSizes m = fns.length) ∧
    (∀ parents ops fns,
      c.SelectOperatorClass (GetOperatorClassesQuery F) = (parents, none) →
      c.SelectOperatorClassOperator GetOperatorClassOperatorsQuery = (ops, none) →
      c.SelectOperatorClassFunction GetOperatorClassFunctionsQuery = (fns, none) →
      ∃ res, (GetOperatorClasses F c log).1 = Except.ok res ∧
        (∀ o ∈ ops, (∀ P ∈ parents, P.Oid ≠ o.ClassOid) → ∀ C ∈ res, o ∉ C.Operators) ∧
        (∀ f ∈ fns, (∀ P ∈ parents, P.Oid ≠ f.ClassOid) → ∀ C ∈ res, f ∉ C.Functions)) := by
  refine ⟨?_, ?_, ?_⟩
  · intro ops ho
    refine ⟨_, GetOperatorClassOperators_ok c log ops ho, ?_⟩
    rw [operatorStep_eq]
    exact group_partition OperatorClassOperator.ClassOid ops
  · intro fns hf
    refine ⟨_, GetOperatorClassFunctions_ok c log fns hf, ?_⟩
    rw [functionStep_eq]
    exact group_partition OperatorClassFunction.ClassOid fns
  · intro parents ops fns hp ho hf
    refine ⟨_, GetOperatorClasses_ok F c log parents ops fns hp ho hf, ?_, ?_⟩
    · intro o _ hno C hC hmem
      simp only [attachFunctions, attachOperators, List.map_map, List.mem_map,
        Function.comp_apply] at hC
      obtain ⟨P, hP, rfl⟩ := hC
      have hmem' : o ∈ GoMap.index [] (ops.foldl operatorStep []) P.Oid := hmem
      rw [index_operators, List.mem_filter] at hmem'
      exact hno P hP (of_decide_eq_true hmem'.2).symm
    · intro f _ hno C hC hmem
      simp only [attachFunctions, attachOperators, List.map_map, List.mem_map,
        Function.comp_apply] at hC
      obtain ⟨P, hP, rfl⟩ := hC
      have hmem' : f ∈ GoMap.index [] (fns.foldl functionStep []) P.Oid := hmem
      rw [index_functions, List.mem_filter] at hmem'
      exact hno P hP (of_decide_eq_true hmem'.2).symm

/-- Child rows of classes 100 and 300 with parents 100 and 200: the maps have
the groups of 100 and 300, and the rows of class 300 reach no record. -/
theorem child_grouping_is_partition_witness :
    (∃ m, (GetOperatorClassOperators orphanConn []).1 = Except.ok m ∧
        (GoMap.keys m).Nodup ∧
        (∀ k, k ∈ GoMap.keys m ↔ ∃ r ∈ [op100s1, op300s2, op100s3], r.ClassOid = k) ∧
        (∀ k, GoMap.find? m k ≠ some []) ∧
        (∀ k v, GoMap.find? m k = some v →
          v = [op100s1, op300s2, op100s3].filter (fun r => decide (r.ClassOid = k)) ∧
          ∀ x ∈ v, x.ClassOid = k) ∧
        groupSizes m = [op100s1, op300s2, op100s3].length) ∧
    (∃ m, (GetOperatorClassFunctions orphanConn []).1 = Except.ok m ∧
        (GoMap.keys m).Nodup ∧
        (∀ k, k ∈ GoMap.keys m ↔ ∃ r ∈ [fn100s1, fn300s1], r.ClassOid = k) ∧
        (∀ k, GoMap.find? m k ≠ some []) ∧
        (∀ k v, GoMap.find? m k = some v →
          v = [fn100s1, fn300s1].filter (fun r => decide (r.ClassOid = k)) ∧
          ∀ x ∈ v, x.ClassOid = k) ∧
        groupSizes m = [fn100s1, fn300s1].length) ∧
    (∃ res, (GetOperatorClasses sampleFilter orphanConn []).1 = Except.ok res ∧
        (∀ o ∈ [op100s1, op300s2, op100s3],
          (∀ P ∈ [class100, class200], P.Oid ≠ o.ClassOid) → ∀ C ∈ res, o ∉ C.Operators) ∧
        (∀ f ∈ [fn100s1, fn300s1],
          (∀ P ∈ [class100, class200], P.Oid ≠ f.ClassOid) → ∀ C ∈ res, f ∉ C.Functions)) ∧
    (GetOperatorClassFunctions orphanConn []).1
      = Except.ok [(100, [fn100s1]), (300, [fn300s1])] :=
  ⟨(child_grouping_is_partition sampleFilter orphanConn []).1 _ rfl,
   (child_grouping_is_partition sampleFilter orphanConn []).2.1 _ rfl,
   (child_grouping_is_partition sampleFilter orphanConn []).2.2 _ _ _ rfl rfl rfl,
   rfl⟩

/-! ## The sequence owner map -/

theorem mem_keys_owners (MakeFQN : String → String → String) (QuoteIdent : String → String)
    (rows : List QuerySequenceOwner) (m : GoMap String String) (k : String) :
    k ∈ GoMap.keys (rows.foldl (sequenceOwnerStep MakeFQN QuoteIdent) m)
      ↔ k ∈ GoMap.keys m ∨ ∃ r ∈ rows, seqFQN MakeFQN r = k := by
  induction rows generalizing m with
  | nil => simp
  | cons r rest ih =>
    rw [List.foldl_cons, ih]
    unfold sequenceOwnerStep
    rw [GoMap.keys_set]
    by_cases h : seqFQN MakeFQN r ∈ GoMap.keys m
    · simp only [h, if_true, List.mem_cons, exists_eq_or_imp]
      constructor
      · rintro (h1 | h1)
        · exact Or.inl h1
        · exact Or.inr (Or.inr h1)
      · rintro (h1 | h1 | h1)
        · exact Or.inl h1
        · exact Or.inl (h1 ▸ h)
        · exact Or.inr h1
    · simp only [h, if_false, List.mem_append, List.mem_cons, List.not_mem_nil, or_false,
        exists_eq_or_imp]
      constructor
      · rintro ((h1 | h1) | h1)
        · exact Or.inl h1
        · exact Or.inr (Or.inl h1.symm)
        · exact Or.inr (Or.inr h1)
      · rintro (h1 | h1 | h1)
        · exact Or.inl (Or.inl h1)
        · exact Or.inl (Or.inr h1.symm)
        · exact Or.inr h1

theorem nodup_keys_owners (MakeFQN : String → String → String)
    (QuoteIdent : String → String) (rows : List QuerySequenceOwner)
    (m : GoMap String String) (h : (GoMap.keys m).Nodup) :
    (GoMap.keys (rows.foldl (sequenceOwnerStep MakeFQN QuoteIdent) m)).Nodup := by
  induction rows generalizing m with
  | nil => simpa using h
  | cons r rest ih =>
    rw [List.foldl_cons]
    exact ih _ (GoMap.nodup_keys_set m _ _ h)

theorem find?_owners_of_not_mem (MakeFQN : String → String → String)
    (QuoteIdent : String → String) (rows : List QuerySequenceOwner)
    (m : GoMap String String) (k : String) (h : ∀ r ∈ rows, seqFQN MakeFQN r ≠ k) :
    GoMap.find? (rows.foldl (sequenceOwnerStep MakeFQN QuoteIdent) m) k = GoMap.find? m k := by
  induction rows generalizing m with
  | nil => rfl
  | cons r rest ih =>
    rw [List.foldl_cons, ih _ (fun r' hr' => h r' (List.mem_cons_of_mem _ hr'))]
    unfold sequenceOwnerStep
    rw [GoMap.find?_set, if_neg (h r (List.mem_cons_self _ _))]

theorem exists_last_of_exists {α : Type} (p : α → Prop) (l : List α)
    (h : ∃ x ∈ l, p x) :
    ∃ pre x post, l = pre ++ x :: post ∧ p x ∧ ∀ y ∈ post, ¬ p y := by
  induction l with
  | nil => simp at h
  | cons a t ih =>
    by_cases ht : ∃ x ∈ t, p x
    · obtain ⟨pre, x, post, hl, hx, hpost⟩ := ih ht
      exact ⟨a :: pre, x, post, by rw [hl, List.cons_append], hx, hpost⟩
    · obtain ⟨x, hx, hpx⟩ := h
      rcases List.mem_cons.mp hx with rfl | hx'
      · exact ⟨[], x, t, rfl, hpx, fun y hy hpy => ht ⟨y, hy, hpy⟩⟩
      · exact absurd ⟨x, hx', hpx⟩ ht

theorem find?_owners_last (MakeFQN : String → String → String)
    (QuoteIdent : String → String) (pre post : List QuerySequenceOwner)
    (r : QuerySequenceOwner) (m : GoMap String String)
    (h : ∀ r' ∈ post, seqFQN MakeFQN r' ≠ seqFQN MakeFQN r) :
    GoMap.find? ((pre ++ r :: post).foldl (sequenceOwnerStep MakeFQN QuoteIdent) m)
        (seqFQN MakeFQN r)
      = some (columnFQN MakeFQN QuoteIdent r) := by
  rw [List.foldl_append, List.foldl_cons, find?_owners_of_not_mem _ _ _ _ _ h]
  unfold sequenceOwnerStep
  rw [GoMap.find?_set, if_pos rfl]

/-- C4: when the owner query delivers `rows`, `GetSequenceColumnOwnerMap`
returns a map with one entry per key whose keys are exactly the values
`MakeFQN(SchemaName, SequenceName)` of the rows, and under each key the column
name of the last row with that key, `MakeFQN(SchemaName, TableName)` followed
by a dot and `QuoteIdent(ColumnName)`; earlier rows of the key are overwritten
and the call does not fail. -/
theorem GetSequenceColumnOwnerMap_last_row_wins (MakeFQN : String → String → String)
    (QuoteIdent : String → String) (c : DBConn) (log : List String)
    (rows : List QuerySequenceOwner)
    (h : c.SelectSequenceOwner GetSequenceColumnOwnerMapQuery = (rows, none)) :
    ∃ m, (GetSequenceColumnOwnerMap MakeFQN QuoteIdent c log).1 = Except.ok m ∧
      (GoMap.keys m).Nodup ∧
      (∀ k, k ∈ GoMap.keys m ↔ ∃ r ∈ rows, MakeFQN r.SchemaName r.SequenceName = k) ∧
      (∀ pre r post, rows = pre ++ r :: post →
        (∀ r' ∈ post, MakeFQN r'.SchemaName r'.SequenceName
            ≠ MakeFQN r.SchemaName r.SequenceName) →
        GoMap.find? m (MakeFQN r.SchemaName r.SequenceName)
          = some (MakeFQN r.SchemaName r.TableName ++ "." ++ QuoteIdent r.ColumnName)) ∧
      (∀ k ∈ GoMap.keys m, ∃ pre r post, rows = pre ++ r :: post ∧
        MakeFQN r.SchemaName r.SequenceName = k ∧
        (∀ r' ∈ post, MakeFQN r'.SchemaName r'.SequenceName ≠ k) ∧
        GoMap.find? m k
          = some (MakeFQN r.SchemaName r.TableName ++ "." ++ QuoteIdent r.ColumnName)) := by
  refine ⟨rows.foldl (sequenceOwnerStep MakeFQN QuoteIdent) [], ?_, ?_, ?_, ?_, ?_⟩
  · rw [GetSequenceColumnOwnerMap_apply, h]
  · exact nodup_keys_owners MakeFQN QuoteIdent rows [] (by simp [GoMap.keys])
  · intro k
    rw [mem_keys_owners]
    simp [GoMap.keys, seqFQN]
  · intro pre r post hrows hlast
    rw [hrows]
    exact find?_owners_last MakeFQN QuoteIdent pre post r [] hlast
  · intro k hk
    rw [mem_keys_owners] at hk
    rcases hk with hk | hk
    · simp [GoMap.keys] at hk
    · obtain ⟨pre, r, post, hrows, hr, hpost⟩ :=
        exists_last_of_exists (fun r => seqFQN MakeFQN r = k) rows hk
      refine ⟨pre, r, post, hrows, hr, hpost, ?_⟩
      have hlast : ∀ r' ∈ post, seqFQN MakeFQN r' ≠ seqFQN MakeFQN r := by
        intro r' hr'
        rw [hr]
        exact hpost r' hr'
      have := find?_owners_last MakeFQN QuoteIdent pre post r [] hlast
      rw [hr, ← hrows] at this
      exact this

/-- The sequence `public.seq1` linked to `t1.a` and later to `t3.c`: the map
keeps the later column. -/
theorem GetSequenceColumnOwnerMap_last_row_wins_witness :
    (∃ m, (GetSequenceColumnOwnerMap sampleMakeFQN sampleQuoteIdent ownerConn []).1
        = Except.ok m ∧
      (GoMap.keys m).Nodup ∧
      (∀ k, k ∈ GoMap.keys m ↔
        ∃ r ∈ ownerRows, sampleMakeFQN r.SchemaName r.SequenceName = k) ∧
      (∀ pre r post, ownerRows = pre ++ r :: post →
        (∀ r' ∈ post, sampleMakeFQN r'.SchemaName r'.SequenceName
            ≠ sampleMakeFQN r.SchemaName r.SequenceName) →
        GoMap.find? m (sampleMakeFQN r.SchemaName r.SequenceName)
          = some (sampleMakeFQN r.SchemaName r.TableName ++ "."
              ++ sampleQuoteIdent r.ColumnName)) ∧
      (∀ k ∈ GoMap.keys m, ∃ pre r post, ownerRows = pre ++ r :: post ∧
        sampleMakeFQN r.SchemaName r.SequenceName = k ∧
        (∀ r' ∈ post, sampleMakeFQN r'.SchemaName r'.SequenceName ≠ k) ∧
        GoMap.find? m k
          = some (sampleMakeFQN r.SchemaName r.TableName ++ "."
              ++ sampleQuoteIdent r.ColumnName))) ∧
    (GetSequenceColumnOwnerMap sampleMakeFQN sampleQuoteIdent ownerConn []).1
      = Except.ok [("public.seq1", "public.t3.\"c\""), ("public.seq2", "public.t2.\"b\"")] :=
  ⟨GetSequenceColumnOwnerMap_last_row_wins sampleMakeFQN sampleQuoteIdent ownerConn []
      ownerRows rfl, rfl⟩

/-! ## The plain list queries -/

/-- C9: each plain list-returning operation (`GetAllUserSchemas`,
`GetConstraints`, `GetAllSequenceRelations`, `GetProceduralLanguages`,
`GetExternalProtocols`, `GetOperators`, `GetOperatorFamilies`,
`GetConversions`) returns, when its query succeeds, exactly the row list the
connection delivered; in particular `GetConstraints` returns the empty list
when the connection delivers no rows. -/
theorem plain_queries_return_rows (F : String → String) (c : DBConn) (log : List String) :
    (∀ rows, c.SelectSchema (GetAllUserSchemasQuery F) = (rows, none) →
      (GetAllUserSchemas F c log).1 = Except.ok rows) ∧
    (∀ rows, c.SelectConstraint (GetConstraintsQuery F) = (rows, none) →
      (GetConstraints F c log).1 = Except.ok rows) ∧
    (∀ rows, c.SelectRelation GetAllSequenceRelationsQuery = (rows, none) →
      (GetAllSequenceRelations c log).1 = Except.ok rows) ∧
    (∀ rows, c.SelectProceduralLanguage GetProceduralLanguagesQuery = (rows, none) →
      (GetProceduralLanguages c log).1 = Except.ok rows) ∧
    (∀ rows, c.SelectExtProtocol GetExternalProtocolsQuery = (rows, none) →
      (GetExternalProtocols c log).1 = Except.ok rows) ∧
    (∀ rows, c.SelectOperator (GetOperatorsQuery F) = (rows, none) →
      (GetOperators F c log).1 = Except.ok rows) ∧
    (∀ rows, c.SelectOperatorFamily (GetOperatorFamiliesQuery F) = (rows, none) →
      (GetOperatorFamilies F c log).1 = Except.ok rows) ∧
    (∀ rows, c.SelectConversion (GetConversionsQuery F) = (rows, none) →
      (GetConversions F c log).1 = Except.ok rows) ∧
    (c.SelectConstraint (GetConstraintsQuery F) = ([], none) →
      (GetConstraints F c log).1 = Except.ok []) := by
  refine ⟨?_, ?_, ?_, ?_, ?_, ?_, ?_, ?_, ?_⟩
  · intro rows h
    rw [GetAllUserSchemas_apply, h]
  · intro rows h
    rw [GetConstraints_apply, h]
  · intro rows h
    rw [GetAllSequenceRelations_apply, h]
  · intro rows h
    rw [GetProceduralLanguages_apply, h]
  · intro rows h
    rw [GetExternalProtocols_apply, h]
  · intro rows h
    rw [GetOperators_apply, h]
  · intro rows h
    rw [GetOperatorFamilies_apply, h]
  · intro rows h
    rw [GetConversions_apply, h]
  · intro h
    rw [GetConstraints_apply, h]

/-- A catalog with rows of every kind, and an empty catalog for the constraints. -/
theorem plain_queries_return_rows_witness :
    (GetAllUserSchemas sampleFilter catalogConn []).1 = Except.ok (catalogConn.SelectSchema (GetAllUserSchemasQuery sampleFilter)).1 ∧
    (GetConstraints sampleFilter catalogConn []).1 = Except.ok (catalogConn.SelectConstraint (GetConstraintsQuery sampleFilter)).1 ∧
    (GetAllSequenceRelations catalogConn []).1 = Except.ok (catalogConn.SelectRelation GetAllSequenceRelationsQuery).1 ∧
    (GetProceduralLanguages catalogConn []).1 = Except.ok (catalogConn.SelectProceduralLanguage GetProceduralLanguagesQuery).1 ∧
    (GetExternalProtocols catalogConn []).1 = Except.ok (catalogConn.SelectExtProtocol GetExternalProtocolsQuery).1 ∧
    (GetOperators sampleFilter catalogConn []).1 = Except.ok (catalogConn.SelectOperator (GetOperatorsQuery sampleFilter)).1 ∧
    (GetOperatorFamilies sampleFilter catalogConn []).1 = Except.ok (catalogConn.SelectOperatorFamily (GetOperatorFamiliesQuery sampleFilter)).1 ∧
    (GetConversions sampleFilter catalogConn []).1 = Except.ok (catalogConn.SelectConversion (GetConversionsQuery sampleFilter)).1 ∧
    (GetConstraints sampleFilter emptyConn []).1 = Except.ok [] ∧
    (catalogConn.SelectConstraint (GetConstraintsQuery sampleFilter)).1.length = 2 :=
  ⟨(plain_queries_return_rows sampleFilter catalogConn []).1 _ rfl,
   (plain_queries_return_rows sampleFilter catalogConn []).2.1 _ rfl,
   (plain_queries_return_rows sampleFilter catalogConn []).2.2.1 _ rfl,
   (plain_queries_return_rows sampleFilter catalogConn []).2.2.2.1 _ rfl,
   (plain_queries_return_rows sampleFilter catalogConn []).2.2.2.2.1 _ rfl,
   (plain_queries_return_rows sampleFilter catalogConn []).2.2.2.2.2.1 _ rfl,
   (plain_queries_return_rows sampleFilter catalogConn []).2.2.2.2.2.2.1 _ rfl,
   (plain_queries_return_rows sampleFilter catalogConn []).2.2.2.2.2.2.2.1 _ rfl,
   (plain_queries_return_rows sampleFilter emptyConn []).2.2.2.2.2.2.2.2 rfl,
   rfl⟩

/-! ## Session settings -/

/-- C6, at a failing input: on a connection where `SHOW client_encoding;`
fails, `GetSessionGUCs` still issues the two later queries and returns a value,
with `ClientEncoding` left empty, instead of failing with the first error. -/
theorem GetSessionGUCs_ignores_first_error :
    (gucFirstFailsConn.GetSessionGUCs {} "SHOW client_encoding;").2 = some "connection lost" ∧
    GetSessionGUCs gucFirstFailsConn [] =
      (Except.ok { ClientEncoding := "", StdConformingStrings := "on", DefaultWithOids := "off" },
        ["SHOW client_encoding;", "SHOW standard_conforming_strings;",
          "SHOW default_with_oids;"]) := by
  constructor
  · rfl
  · rfl

/-- Only the error of the third query decides the outcome of `GetSessionGUCs`,
and all three queries are issued whatever the first two return. -/
theorem GetSessionGUCs_checks_last_error_only (c : DBConn) (log : List String) :
    (GetSessionGUCs c log).2 = log ++ ["SHOW client_encoding;",
      "SHOW standard_conforming_strings;", "SHOW default_with_oids;"] ∧
    ((∃ r, (GetSessionGUCs c log).1 = Except.ok r) ↔
      (c.GetSessionGUCs
        (c.GetSessionGUCs (c.GetSessionGUCs {} "SHOW client_encoding;").1
          "SHOW standard_conforming_strings;").1 "SHOW default_with_oids;").2 = none) := by
  rw [GetSessionGUCs_apply]
  rcases (c.GetSessionGUCs
        (c.GetSessionGUCs (c.GetSessionGUCs {} "SHOW client_encoding;").1
          "SHOW standard_conforming_strings;").1 "SHOW default_with_oids;").2 with _ | e
  · simp
  · simp

/-! ## The schema filter in the query texts -/

set_option maxRecDepth 100000 in
/-- The six queries that are built with `fmt.Sprintf` carry the filter clause,
on the alias under which they read `pg_namespace`, right after their `WHERE`. -/
theorem filtered_queries_have_clause (F : String → String) :
    hasWhereClause (GetAllUserSchemasQuery F) (F "n") ∧
    hasWhereClause (GetConstraintsQuery F) (F "n") ∧
    hasWhereClause (GetOperatorsQuery F) (F "n") ∧
    hasWhereClause (GetOperatorFamiliesQuery F) (F "n") ∧
    hasWhereClause (GetOperatorClassesQuery F) (F "cls_ns") ∧
    hasWhereClause (GetConversionsQuery F) (F "n") := by
  refine ⟨?_, ?_, ?_, ?_, ?_, ?_⟩
  · refine ⟨"\nSELECT\n\toid,\n\tnspname AS name\nFROM pg_namespace n\n",
      "\nORDER BY name;", ?_⟩
    unfold GetAllUserSchemasQuery
    congr 2
  · refine ⟨"\nSELECT\n\tc.oid,\n\tconname,\n\tcontype,\n\tpg_get_constraintdef(c.oid, TRUE) AS condef,\n\tCASE\n\t\tWHEN r.relname IS NULL THEN quote_ident(n.nspname) || '.' ||quote_ident(t.typname)\n\t\tELSE  quote_ident(n.nspname) || '.' || quote_ident(r.relname)\n\tEND AS owningobject,\n\tCASE\n\t\tWHEN r.relname IS NULL THEN 't'\n\t\tELSE 'f'\n\tEND AS isdomainconstraint,\n\tCASE\n\t\tWHEN pt.parrelid IS NULL THEN 'f'\n\t\tELSE 't'\n\tEND AS ispartitionparent\nFROM pg_constraint c\nLEFT JOIN pg_class r\n\tON c.conrelid = r.oid\nLEFT JOIN pg_partition_rule pr\n\tON c.conrelid = pr.parchildrelid\nLEFT JOIN pg_partition pt\n\tON c.conrelid = pt.parrelid\nLEFT JOIN pg_type t\n\tON c.contypid = t.oid\nJOIN pg_namespace n\n\tON n.oid = c.connamespace\n",
      "\nAND pr.parchildrelid IS NULL\nORDER BY conname;", ?_⟩
    unfold GetConstraintsQuery
    congr 2
  · refine ⟨"\nSELECT\n\to.oid,\n\tn.nspname AS schemaname,\n\toprname AS name,\n\toprcode AS procedurename,\n\toprleft::regtype AS leftargtype,\n\toprright::regtype AS rightargtype,\n\toprcom::regoper AS commutatorop,\n\toprnegate::regoper AS negatorop,\n\toprrest AS restrictfunction,\n\toprjoin AS joinfunction,\n\toprcanmerge AS canmerge,\n\toprcanhash AS canhash\nFROM pg_operator o\nJOIN pg_namespace n on n.oid = o.oprnamespace\n",
      " AND oprcode != 0", ?_⟩
    unfold GetOperatorsQuery
    congr 2
  · refine ⟨"\nSELECT\n\to.oid,\n\tn.nspname AS schemaname,\n\topfname AS name,\n\t(SELECT amname FROM pg_am WHERE oid = opfmethod) AS indexMethod\nFROM pg_opfamily o\nJOIN pg_namespace n on n.oid = o.opfnamespace\n",
      "", ?_⟩
    rw [String.append_empty]
    unfold GetOperatorFamiliesQuery
    congr 1
  · refine ⟨"\nSELECT\n\tc.oid,\n\tcls_ns.nspname AS classschema,\n\topcname AS classname,\n\tfam_ns.nspname AS familyschema,\n\topfname AS familyname,\n\t(SELECT amname FROM pg_catalog.pg_am WHERE oid = opcmethod) AS indexmethod,\n\topcintype::pg_catalog.regtype AS type,\n\topcdefault AS default,\n\topckeytype::pg_catalog.regtype AS storagetype\nFROM pg_catalog.pg_opclass c\nLEFT JOIN pg_catalog.pg_opfamily f ON f.oid = opcfamily\nJOIN pg_catalog.pg_namespace cls_ns ON cls_ns.oid = opcnamespace\nJOIN pg_catalog.pg_namespace fam_ns ON fam_ns.oid = opfnamespace\n",
      "", ?_⟩
    rw [String.append_empty]
    unfold GetOperatorClassesQuery
    congr 1
  · refine ⟨"\nSELECT\n\tc.oid,\n\tn.nspname,\n\tc.conname,\n\tpg_encoding_to_char(c.conforencoding) AS forencoding,\n\tpg_encoding_to_char(c.contoencoding) AS toencoding,\n\tquote_ident(fn.nspname) || '.' || quote_ident(p.proname) AS conversionfunction,\n\tc.condefault\nFROM pg_conversion c\nJOIN pg_namespace n ON c.connamespace = n.oid\nJOIN pg_proc p ON c.conproc = p.oid\nJOIN pg_namespace fn ON p.pronamespace = fn.oid\n",
      "\nORDER BY n.nspname, c.conname;", ?_⟩
    unfold GetConversionsQuery
    congr 2

theorem not_containsText_of_char (query clause : String) (ch : Char)
    (hc : ch ∈ clause.data) (hq : ch ∉ query.data) : ¬ containsText query clause := by
  rintro ⟨pre, suf, h⟩
  apply hq
  rw [h]
  simp [String.data_append, hc]

/-- C7, at a failing input: with a filter clause that holds a `%` pattern, the
texts sent by `GetAllSequenceRelations` and `GetSequenceColumnOwnerMap`, which
both read `pg_namespace` under the alias `n`, do not contain the clause
`NonUserSchemaFilterClause("n")` anywhere. -/
theorem sequence_queries_omit_schema_filter :
    (GetAllSequenceRelations emptyConn []).2 = [GetAllSequenceRelationsQuery] ∧
    ¬ containsText GetAllSequenceRelationsQuery (sampleFilter "n") ∧
    (GetSequenceColumnOwnerMap sampleMakeFQN sampleQuoteIdent emptyConn []).2
      = [GetSequenceColumnOwnerMapQuery] ∧
    ¬ containsText GetSequenceColumnOwnerMapQuery (sampleFilter "n") := by
  refine ⟨rfl, ?_, rfl, ?_⟩
  · exact not_containsText_of_char _ _ '%' (by decide) (by decide)
  · exact not_containsText_of_char _ _ '%' (by decide) (by decide)

/-! ## Round trips -/

/-- C8 fails for `GetSessionGUCs`: on a connection where every query succeeds
the call succeeds and has appended three queries to the log, not one. -/
theorem GetSessionGUCs_appends_three_queries :
    (GetSessionGUCs emptyConn []).1 = Except.ok {} ∧
    (GetSessionGUCs emptyConn []).2 = ["SHOW client_encoding;",
      "SHOW standard_conforming_strings;", "SHOW default_with_oids;"] ∧
    ¬ ∃ q, (GetSessionGUCs emptyConn []).2 = [] ++ [q] := by
  refine ⟨rfl, rfl, ?_⟩
  rintro ⟨q, hq⟩
  have hlen := congrArg List.length hq
  simp [GetSessionGUCs_apply, emptyConn] at hlen

/-- C8, amended: with the connection as a log of issued queries, every
successful call of `GetAllUserSchemas`, `GetConstraints`,
`GetAllSequenceRelations`, `GetSequenceDefinition`, `GetSequenceColumnOwnerMap`,
`GetProceduralLanguages`, `GetExternalProtocols`, `GetOperators`,
`GetOperatorFamilies`, `GetOperatorClassOperators`, `GetOperatorClassFunctions`
and `GetConversions` appends exactly one query to the log, its own query text,
which for `GetSequenceDefinition` is `SELECT * FROM ` followed by the given
sequence name; every successful call of `GetSessionGUCs` appends three, the
three `SHOW` queries in order; and every successful call of
`GetOperatorClasses` appends three, its parent query and the two child
queries. -/
theorem queries_per_call (F : String → String) (MakeFQN : String → String → String)
    (QuoteIdent : String → String) (c : DBConn) (seqName : String) (log : List String) :
    (∀ r, (GetAllUserSchemas F c log).1 = Except.ok r →
      (GetAllUserSchemas F c log).2 = log ++ [GetAllUserSchemasQuery F]) ∧
    (∀ r, (GetConstraints F c log).1 = Except.ok r →
      (GetConstraints F c log).2 = log ++ [GetConstraintsQuery F]) ∧
    (∀ r, (GetAllSequenceRelations c log).1 = Except.ok r →
      (GetAllSequenceRelations c log).2 = log ++ [GetAllSequenceRelationsQuery]) ∧
    (∀ r, (GetSequenceColumnOwnerMap MakeFQN QuoteIdent c log).1 = Except.ok r →
      (GetSequenceColumnOwnerMap MakeFQN QuoteIdent c log).2 = log ++ [GetSequenceColumnOwnerMapQuery]) ∧
    (∀ r, (GetProceduralLanguages c log).1 = Except.ok r →
      (GetProceduralLanguages c log).2 = log ++ [GetProceduralLanguagesQuery]) ∧
    (∀ r, (GetExternalProtocols c log).1 = Except.ok r →
      (GetExternalProtocols c log).2 = log ++ [GetExternalProtocolsQuery]) ∧
    (∀ r, (GetOperators F c log).1 = Except.ok r →
      (GetOperators F c log).2 = log ++ [GetOperatorsQuery F]) ∧
    (∀ r, (GetOperatorFamilies F c log).1 = Except.ok r →
      (GetOperatorFamilies F c log).2 = log ++ [GetOperatorFamiliesQuery F]) ∧
    (∀ r, (GetOperatorClassOperators c log).1 = Except.ok r →
      (GetOperatorClassOperators c log).2 = log ++ [GetOperatorClassOperatorsQuery]) ∧
    (∀ r, (GetOperatorClassFunctions c log).1 = Except.ok r →
      (GetOperatorClassFunctions c log).2 = log ++ [GetOperatorClassFunctionsQuery]) ∧
    (∀ r, (GetConversions F c log).1 = Except.ok r →
      (GetConversions F c log).2 = log ++ [GetConversionsQuery F]) ∧
    (∀ r, (GetSequenceDefinition c seqName log).1 = Except.ok r →
      (GetSequenceDefinition c seqName log).2 = log ++ ["SELECT * FROM " ++ seqName]) ∧
    (∀ r, (GetSessionGUCs c log).1 = Except.ok r →
      (GetSessionGUCs c log).2 = log ++ ["SHOW client_encoding;",
        "SHOW standard_conforming_strings;", "SHOW default_with_oids;"]) ∧
    (∀ r, (GetOperatorClasses F c log).1 = Except.ok r →
      (GetOperatorClasses F c log).2 = log ++ [GetOperatorClassesQuery F,
        GetOperatorClassOperatorsQuery, GetOperatorClassFunctionsQuery]) := by
  refine ⟨?_, ?_, ?_, ?_, ?_, ?_, ?_, ?_, ?_, ?_, ?_, ?_, ?_, ?_⟩
  · intro r _
    rw [GetAllUserSchemas_apply]
    split <;> rfl
  · intro r _
    rw [GetConstraints_apply]
    split <;> rfl
  · intro r _
    rw [GetAllSequenceRelations_apply]
    split <;> rfl
  · intro r _
    rw [GetSequenceColumnOwnerMap_apply]
    split <;> rfl
  · intro r _
    rw [GetProceduralLanguages_apply]
    split <;> rfl
  · intro r _
    rw [GetExternalProtocols_apply]
    split <;> rfl
  · intro r _
    rw [GetOperators_apply]
    split <;> rfl
  · intro r _
    rw [GetOperatorFamilies_apply]
    split <;> rfl
  · intro r _
    rw [GetOperatorClassOperators_apply]
    split <;> rfl
  · intro r _
    rw [GetOperatorClassFunctions_apply]
    split <;> rfl
  · intro r _
    rw [GetConversions_apply]
    split <;> rfl
  · intro r _
    rw [GetSequenceDefinition_apply]
    split <;> rfl
  · intro r _
    rw [GetSessionGUCs_apply]
    split <;> simp
  · intro r hr
    rw [GetOperatorClasses_apply] at hr ⊢
    split at hr
    · cases hr
    · split at hr
      · cases hr
      · split at hr
        · cases hr
        · simp

/-- Every operation called once on the connection of the scenario, from an
empty log. -/
theorem queries_per_call_witness :
    (GetAllUserSchemas sampleFilter scenarioConn []).2 = [] ++ [GetAllUserSchemasQuery sampleFilter] ∧
    (GetConstraints sampleFilter scenarioConn []).2 = [] ++ [GetConstraintsQuery sampleFilter] ∧
    (GetAllSequenceRelations scenarioConn []).2 = [] ++ [GetAllSequenceRelationsQuery] ∧
    (GetSequenceColumnOwnerMap sampleMakeFQN sampleQuoteIdent scenarioConn []).2 = [] ++ [GetSequenceColumnOwnerMapQuery] ∧
    (GetProceduralLanguages scenarioConn []).2 = [] ++ [GetProceduralLanguagesQuery] ∧
    (GetExternalProtocols scenarioConn []).2 = [] ++ [GetExternalProtocolsQuery] ∧
    (GetOperators sampleFilter scenarioConn []).2 = [] ++ [GetOperatorsQuery sampleFilter] ∧
    (GetOperatorFamilies sampleFilter scenarioConn []).2 = [] ++ [GetOperatorFamiliesQuery sampleFilter] ∧
    (GetOperatorClassOperators scenarioConn []).2 = [] ++ [GetOperatorClassOperatorsQuery] ∧
    (GetOperatorClassFunctions scenarioConn []).2 = [] ++ [GetOperatorClassFunctionsQuery] ∧
    (GetConversions sampleFilter scenarioConn []).2 = [] ++ [GetConversionsQuery sampleFilter] ∧
    (GetSequenceDefinition scenarioConn "public.seq1" []).2 = [] ++ ["SELECT * FROM " ++ "public.seq1"] ∧
    (GetSessionGUCs scenarioConn []).2 = [] ++ ["SHOW client_encoding;",
      "SHOW standard_conforming_strings;", "SHOW default_with_oids;"] ∧
    (GetOperatorClasses sampleFilter scenarioConn []).2 = [] ++ [GetOperatorClassesQuery sampleFilter,
      GetOperatorClassOperatorsQuery, GetOperatorClassFunctionsQuery] :=
  ⟨(queries_per_call sampleFilter sampleMakeFQN sampleQuoteIdent scenarioConn "public.seq1" []).1 _ rfl,
   (queries_per_call sampleFilter sampleMakeFQN sampleQuoteIdent scenarioConn "public.seq1" []).2.1 _ rfl,
   (queries_per_call sampleFilter sampleMakeFQN sampleQuoteIdent scenarioConn "public.seq1" []).2.2.1 _ rfl,
   (queries_per_call sampleFilter sampleMakeFQN sampleQuoteIdent scenarioConn "public.seq1" []).2.2.2.1 _ rfl,
   (queries_per_call sampleFilter sampleMakeFQN sampleQuoteIdent scenarioConn "public.seq1" []).2.2.2.2.1 _ rfl,
   (queries_per_call sampleFilter sampleMakeFQN sampleQuoteIdent scenarioConn "public.seq1" []).2.2.2.2.2.1 _ rfl,
   (queries_per_call sampleFilter sampleMakeFQN sampleQuoteIdent scenarioConn "public.seq1" []).2.2.2.2.2.2.1 _ rfl,
   (queries_per_call sampleFilter sampleMakeFQN sampleQuoteIdent scenarioConn "public.seq1" []).2.2.2.2.2.2.2.1 _ rfl,
   (queries_per_call sampleFilter sampleMakeFQN sampleQuoteIdent scenarioConn "public.seq1" []).2.2.2.2.2.2.2.2.1 _ rfl,
   (queries_per_call sampleFilter sampleMakeFQN sampleQuoteIdent scenarioConn "public.seq1" []).2.2.2.2.2.2.2.2.2.1 _ rfl,
   (queries_per_call sampleFilter sampleMakeFQN sampleQuoteIdent scenarioConn "public.seq1" []).2.2.2.2.2.2.2.2.2.2.1 _ rfl,
   (queries_per_call sampleFilter sampleMakeFQN sampleQuoteIdent scenarioConn "public.seq1" []).2.2.2.2.2.2.2.2.2.2.2.1 _ rfl,
   (queries_per_call sampleFilter sampleMakeFQN sampleQuoteIdent scenarioConn "public.seq1" []).2.2.2.2.2.2.2.2.2.2.2.2.1 _ rfl,
   (queries_per_call sampleFilter sampleMakeFQN sampleQuoteIdent scenarioConn "public.seq1" []).2.2.2.2.2.2.2.2.2.2.2.2.2 _ rfl⟩

end Backup
